import Mathlib

/-!
# Workflow Optimizer: the application controller `app.js`

A shallow embedding of the controller's session state, of its URL-fragment
handling and of its recomputation pipeline, followed by the properties proved
about them.

Conventions of the embedding.

* JavaScript strings are Lean strings (sequences of Unicode scalar values), so a
  string with an unpaired surrogate has no counterpart here.
* A function of another script (`escapeHTML`, `filterModelsBySearchQuery`,
  `applyAllActiveFilters`, `readCurrentFilterSettings`, `displaySearchResults`,
  `displayModelDetail`) is a field of `Env`. Each of them may throw any value,
  `null` and `undefined` included, which is an `Except.error`; for `escapeHTML`
  the field `escapeHTMLThrows` tells the value it throws, and the field
  `escapeHTML` what it returns otherwise.
* A call that only drives the presentation is recorded, in order, in the
  `trace` of the state; `showLoadingState`, `hideLoadingState` and
  `console.error` are such calls and do not throw.
* The search input is a text input: assigning to its `value` stores the string
  without its line breaks, and reading it returns what was stored.
* The built-ins `URLSearchParams`, `decodeURIComponent`, `encodeURIComponent` and
  `trim` follow the URL, Encoding and ECMAScript standards.
* A handler returns the pair of its completion (`Except.ok ()` for a normal
  return, `Except.error e` for an exception that leaves the handler) and the
  state it leaves behind.
-/

namespace WorkflowOptimizer

/-! ## Data model -/

/-- A thrown value other than `null` and `undefined`: its constructor name and
the text that the concatenation with its `message` yields (the text `undefined`
for a value without that property). -/
structure JSError where
  name : String
  message : String
deriving DecidableEq, Repr

/-- A thrown value: `null` or `undefined`, or any other value. -/
inductive Thrown where
  | error (e : JSError)
  | nullish
deriving DecidableEq

/-- The error of reading the property `message` of `null` or `undefined`. -/
def messageOfNullError : Thrown :=
  .error ⟨"TypeError", "Cannot read properties of null (reading 'message')"⟩

/-- A JavaScript number, as far as comparison needs it: a finite value, `NaN`,
or one of the two infinities. -/
inductive JSNumber where
  | finite (q : ℚ)
  | nan
  | posInf
  | negInf
deriving DecidableEq

/-- The comparison `x < 50` of JavaScript: false on `NaN`. -/
def JSNumber.ltFifty : JSNumber → Bool
  | .finite q => decide (q < 50)
  | .nan => false
  | .posInf => false
  | .negInf => true

/-- The value stored under the `maxBudget` key: a number or something else
(for instance the raw text of the slider). -/
inductive BudgetValue where
  | number (x : JSNumber)
  | other (text : String)
deriving DecidableEq

/-- The filter settings object. A field is `none` when the object has no such
key, so the object literal `{}` is the record with every field `none`. -/
structure FilterSettings where
  freeOnly : Option Bool := none
  freeTrials : Option Bool := none
  capabilities : Option (List String) := none
  inputTypes : Option (List String) := none
  outputTypes : Option (List String) := none
  maxBudget : Option BudgetValue := none
  sortBy : Option String := none
deriving DecidableEq

/-- The object literal `{}`. -/
def FilterSettings.empty : FilterSettings := {}

/-- The value of `Object.keys(settings).length`. -/
def FilterSettings.keyCount (f : FilterSettings) : Nat :=
  (if f.freeOnly.isSome then 1 else 0) + (if f.freeTrials.isSome then 1 else 0)
    + (if f.capabilities.isSome then 1 else 0) + (if f.inputTypes.isSome then 1 else 0)
    + (if f.outputTypes.isSome then 1 else 0) + (if f.maxBudget.isSome then 1 else 0)
    + (if f.sortBy.isSome then 1 else 0)

/-- The part of the document that the controller reads and writes itself.
A field is `none` when `document.getElementById` finds no such element. -/
structure Dom where
  /-- The `value` of `#search-input`. -/
  searchInput : Option String
  /-- The `textContent` of `#result-heading`. -/
  resultHeading : Option String
  /-- The `textContent` of `#result-count`. -/
  resultCount : Option String
  /-- The `innerHTML` of `#results-grid`. -/
  resultsGrid : Option String
deriving DecidableEq

/-- A call that drives the presentation or the console. -/
inductive Event (α : Type) where
  | showLoadingState
  | hideLoadingState
  | displaySearchResults (models : List α)
  | displayModelDetail (modelName : String)
  | consoleError (label : String) (error : Thrown)
  | retryListenerAdded
deriving DecidableEq

/-- The session state: the three global variables of the script, the document
and the presentation calls made so far. -/
structure AppState (α : Type) where
  currentSearchQuery : String
  currentFilterSettings : FilterSettings
  loadedModels : List α
  dom : Dom
  trace : List (Event α)
deriving DecidableEq

/-- The functions of the other scripts. -/
structure Env (α : Type) where
  escapeHTML : String → String
  escapeHTMLThrows : String → Option Thrown
  filterModelsBySearchQuery : List α → String → Except Thrown (List α)
  applyAllActiveFilters : List α → FilterSettings → Except Thrown (List α)
  readCurrentFilterSettings : Except Thrown FilterSettings
  displaySearchResults : List α → Except Thrown Unit
  displayModelDetail : String → Except Thrown Unit

/-- Appends one presentation call to the trace. -/
def AppState.log {α : Type} (s : AppState α) (e : Event α) : AppState α :=
  { s with trace := s.trace ++ [e] }

/-! ## The result summary -/

/-- The truth value of `filters.capabilities && filters.capabilities.length > 0`
and of its two siblings. -/
def nonEmptyFacet : Option (List String) → Bool
  | some l => decide (0 < l.length)
  | none => false

/-- The truth value of
`typeof filters.maxBudget === 'number' && filters.maxBudget < 50`. -/
def budgetBelowFifty : Option BudgetValue → Bool
  | some (.number x) => x.ltFifty
  | _ => false

/-- The truth value of the constant `hasActiveFilters` of `updateResultSummary`. -/
def hasActiveFilters (f : FilterSettings) : Bool :=
  f.freeOnly.getD false || f.freeTrials.getD false || nonEmptyFacet f.capabilities
    || nonEmptyFacet f.inputTypes || nonEmptyFacet f.outputTypes || budgetBelowFifty f.maxBudget

/-- The heading chosen by `updateResultSummary`. -/
def headingText (escapeHTML : String → String) (searchQuery : String)
    (filters : FilterSettings) : String :=
  if searchQuery ≠ "" ∧ hasActiveFilters filters = true then
    "Results for \"" ++ escapeHTML searchQuery ++ "\" with filters"
  else if searchQuery ≠ "" then
    "Results for \"" ++ escapeHTML searchQuery ++ "\""
  else if hasActiveFilters filters = true then
    "Filtered AI Models"
  else
    "All AI Models"

/-- The text written to `#result-count`. -/
def countText (count : Nat) : String :=
  "Showing " ++ toString count ++ " model" ++ (if count ≠ 1 then "s" else "")

/-- The function `updateResultSummary(count, searchQuery, filters)`, when
`escapeHTML` returns: it returns at once unless both elements exist, and
otherwise writes the heading and the count. -/
def updateResultSummary (escapeHTML : String → String) (count : Nat) (searchQuery : String)
    (filters : FilterSettings) (dom : Dom) : Dom :=
  match dom.resultHeading, dom.resultCount with
  | some _, some _ =>
    { dom with
      resultHeading := some (headingText escapeHTML searchQuery filters)
      resultCount := some (countText count) }
  | _, _ => dom

/-- The value that `updateResultSummary` throws, if any: with both elements and a
non-empty query it calls `escapeHTML` on the query, and nothing else in it
throws. -/
def updateResultSummaryThrows (escapeHTMLThrows : String → Option Thrown)
    (searchQuery : String) (dom : Dom) : Option Thrown :=
  match dom.resultHeading, dom.resultCount with
  | some _, some _ => if searchQuery ≠ "" then escapeHTMLThrows searchQuery else none
  | _, _ => none

/-- The wording of the specification: a filter is active when `freeOnly` or
`freeTrials` is set, one of the three facets is non-empty, or `maxBudget` is a
number below 50. -/
def FilterActive (f : FilterSettings) : Prop :=
  f.freeOnly = some true ∨ f.freeTrials = some true
    ∨ (∃ l, f.capabilities = some l ∧ l ≠ [])
    ∨ (∃ l, f.inputTypes = some l ∧ l ≠ [])
    ∨ (∃ l, f.outputTypes = some l ∧ l ≠ [])
    ∨ (∃ x, f.maxBudget = some (.number x) ∧ x.ltFifty = true)

deriving instance DecidableEq for Except

/-! ## UTF-8 -/

/-- The UTF-8 encoding of one code point. -/
def utf8EncodeCodePoint (c : Nat) : List Nat :=
  if c < 0x80 then [c]
  else if c < 0x800 then [0xC0 + c / 64, 0x80 + c % 64]
  else if c < 0x10000 then [0xE0 + c / 4096, 0x80 + c / 64 % 64, 0x80 + c % 64]
  else [0xF0 + c / 262144, 0x80 + c / 4096 % 64, 0x80 + c / 64 % 64, 0x80 + c % 64]

/-- The UTF-8 encoding of a string. -/
def utf8Encode (s : List Char) : List Nat :=
  s.flatMap (fun c => utf8EncodeCodePoint c.toNat)

/-- The state of a UTF-8 decoder between two bytes: the code point collected so
far, the number of continuation bytes still needed, and the bounds of the next
continuation byte. -/
structure Utf8State where
  codePoint : Nat
  bytesNeeded : Nat
  lower : Nat
  upper : Nat
deriving DecidableEq

def Utf8State.initial : Utf8State := ⟨0, 0, 0x80, 0xBF⟩

/-- What a byte does to a decoder that is between two code points: `none` when
the byte cannot start a code point, the code point itself for an ASCII byte, or
the state that waits for the continuation bytes. -/
def utf8Lead (b : Nat) : Option (Nat ⊕ Utf8State) :=
  if b ≤ 0x7F then some (.inl b)
  else if 0xC2 ≤ b ∧ b ≤ 0xDF then some (.inr ⟨b % 32, 1, 0x80, 0xBF⟩)
  else if 0xE0 ≤ b ∧ b ≤ 0xEF then
    some (.inr ⟨b % 16, 2, if b = 0xE0 then 0xA0 else 0x80, if b = 0xED then 0x9F else 0xBF⟩)
  else if 0xF0 ≤ b ∧ b ≤ 0xF4 then
    some (.inr ⟨b % 8, 3, if b = 0xF0 then 0x90 else 0x80, if b = 0xF4 then 0x8F else 0xBF⟩)
  else none

/-- The replacing UTF-8 decoder ("UTF-8 decode without BOM" of the Encoding
standard): an ill-formed sequence yields U+FFFD and decoding resumes at the
byte that broke it. -/
def utf8DecodeFrom : Utf8State → List Nat → List Nat
  | st, [] => if st.bytesNeeded = 0 then [] else [0xFFFD]
  | st, b :: bs =>
    if st.bytesNeeded = 0 then
      match utf8Lead b with
      | none => 0xFFFD :: utf8DecodeFrom .initial bs
      | some (.inl c) => c :: utf8DecodeFrom .initial bs
      | some (.inr st1) => utf8DecodeFrom st1 bs
    else if b < st.lower ∨ st.upper < b then
      match utf8Lead b with
      | none => 0xFFFD :: 0xFFFD :: utf8DecodeFrom .initial bs
      | some (.inl c) => 0xFFFD :: c :: utf8DecodeFrom .initial bs
      | some (.inr st1) => 0xFFFD :: utf8DecodeFrom st1 bs
    else if st.bytesNeeded = 1 then
      (st.codePoint * 64 + b % 64) :: utf8DecodeFrom .initial bs
    else
      utf8DecodeFrom ⟨st.codePoint * 64 + b % 64, st.bytesNeeded - 1, 0x80, 0xBF⟩ bs

def utf8Decode (bs : List Nat) : List Char :=
  (utf8DecodeFrom .initial bs).map Char.ofNat

/-! ## Percent-encoding -/

def isHexDigit (b : Nat) : Bool :=
  (0x30 ≤ b && b ≤ 0x39) || (0x41 ≤ b && b ≤ 0x46) || (0x61 ≤ b && b ≤ 0x66)

def hexValue (b : Nat) : Nat :=
  if b ≤ 0x39 then b - 0x30 else if b ≤ 0x46 then b - 0x41 + 10 else b - 0x61 + 10

/-- The upper-case hexadecimal digit of a value below 16, as a character code. -/
def hexDigit (v : Nat) : Nat :=
  if v < 10 then 0x30 + v else 0x41 + (v - 10)

/-- The "percent-decode" of the URL standard: a `%` that is not followed by two
hexadecimal digits stays as it is. -/
def percentDecode : List Nat → List Nat
  | [] => []
  | b :: h1 :: h2 :: rest =>
    if b = 0x25 ∧ isHexDigit h1 = true ∧ isHexDigit h2 = true then
      (hexValue h1 * 16 + hexValue h2) :: percentDecode rest
    else b :: percentDecode (h1 :: h2 :: rest)
  | b :: bs => b :: percentDecode bs


/-! ## The query-string parser of `URLSearchParams` -/

/-- Splits a byte sequence at every occurrence of `sep`. -/
def splitOnByte (sep : Nat) : List Nat → List (List Nat)
  | [] => [[]]
  | b :: bs =>
    if b = sep then [] :: splitOnByte sep bs
    else
      match splitOnByte sep bs with
      | [] => [[b]]
      | h :: t => (b :: h) :: t

/-- Splits a byte sequence at the first occurrence of `sep`; the second part is
empty when there is none. -/
def splitAtFirstByte (sep : Nat) : List Nat → List Nat × List Nat
  | [] => ([], [])
  | b :: bs =>
    if b = sep then ([], bs)
    else ((b :: (splitAtFirstByte sep bs).1), (splitAtFirstByte sep bs).2)

/-- Replaces every `+` by a space. -/
def plusToSpace (bs : List Nat) : List Nat :=
  bs.map (fun b => if b = 0x2B then 0x20 else b)

/-- A name or a value of a pair, decoded: `+` replaced, percent-decoded and
UTF-8 decoded with replacement. -/
def formDecode (bs : List Nat) : String :=
  String.mk (utf8Decode (percentDecode (plusToSpace bs)))

/-- One `&`-separated piece, as a pair; an empty piece yields no pair. -/
def parsePair (piece : List Nat) : Option (String × String) :=
  if piece = [] then none
  else some (formDecode (splitAtFirstByte 0x3D piece).1, formDecode (splitAtFirstByte 0x3D piece).2)

/-- The `application/x-www-form-urlencoded` parser of the URL standard. -/
def parseUrlencoded (input : List Nat) : List (String × String) :=
  (splitOnByte 0x26 input).filterMap parsePair

/-- Drops a leading `?`. -/
def dropQuestionMark : List Char → List Char
  | '?' :: rest => rest
  | cs => cs

/-- The constructor `new URLSearchParams(init)` for a string: a leading `?` is
dropped and the rest is parsed. -/
def URLSearchParams (init : String) : List (String × String) :=
  parseUrlencoded (utf8Encode (dropQuestionMark init.data))

/-- The method `get(name)`: the value of the first pair with that name, `none`
for the `null` of a name that does not occur. -/
def URLSearchParams.get : List (String × String) → String → Option String
  | [], _ => none
  | (n, v) :: rest, name => if n = name then some v else URLSearchParams.get rest name

/-! ## `decodeURIComponent` and `encodeURIComponent` -/

/-- A piece of the argument of `decodeURIComponent`: a character that stands
for itself or the octet of an escape `%XX`. -/
inductive UriToken where
  | lit (c : Char)
  | octet (b : Nat)
deriving DecidableEq

/-- Reads the escapes; `none` when a `%` is not followed by two hexadecimal
digits. -/
def uriTokens : List Char → Option (List UriToken)
  | [] => some []
  | c :: h1 :: h2 :: rest =>
    if c = '%' then
      if isHexDigit h1.toNat = true ∧ isHexDigit h2.toNat = true then
        (uriTokens rest).map (fun ts => .octet (hexValue h1.toNat * 16 + hexValue h2.toNat) :: ts)
      else none
    else (uriTokens (h1 :: h2 :: rest)).map (fun ts => .lit c :: ts)
  | c :: cs =>
    if c = '%' then none else (uriTokens cs).map (fun ts => .lit c :: ts)

/-- Assembles the octets into code points; `none` when they are not the UTF-8
encoding of code points. -/
def uriAssemble : Utf8State → List UriToken → Option (List Char)
  | st, [] => if st.bytesNeeded = 0 then some [] else none
  | st, .lit c :: ts =>
    if st.bytesNeeded = 0 then (uriAssemble .initial ts).map (fun cs => c :: cs) else none
  | st, .octet b :: ts =>
    if st.bytesNeeded = 0 then
      match utf8Lead b with
      | none => none
      | some (.inl c) => (uriAssemble .initial ts).map (fun cs => Char.ofNat c :: cs)
      | some (.inr st1) => uriAssemble st1 ts
    else if b < st.lower ∨ st.upper < b then none
    else if st.bytesNeeded = 1 then
      (uriAssemble .initial ts).map (fun cs => Char.ofNat (st.codePoint * 64 + b % 64) :: cs)
    else uriAssemble ⟨st.codePoint * 64 + b % 64, st.bytesNeeded - 1, 0x80, 0xBF⟩ ts

/-- The error that `decodeURIComponent` throws. -/
def uriError : Thrown := .error ⟨"URIError", "URI malformed"⟩

/-- The built-in `decodeURIComponent`: every escape sequence is replaced by the
character it encodes, and a malformed one throws a `URIError`. -/
def decodeURIComponent (s : String) : Except Thrown String :=
  match (uriTokens s.data).bind (uriAssemble .initial) with
  | some cs => .ok (String.mk cs)
  | none => .error uriError

/-- The characters that `encodeURIComponent` leaves alone: letters, digits and
`- _ . ! ~ * ' ( )`. -/
def isUriUnreserved (n : Nat) : Bool :=
  (0x41 ≤ n && n ≤ 0x5A) || (0x61 ≤ n && n ≤ 0x7A) || (0x30 ≤ n && n ≤ 0x39)
    || n = 0x2D || n = 0x5F || n = 0x2E || n = 0x21 || n = 0x7E || n = 0x2A
    || n = 0x27 || n = 0x28 || n = 0x29

/-- The escape `%XX` of one octet. -/
def percentEscape (b : Nat) : List Char :=
  ['%', Char.ofNat (hexDigit (b / 16)), Char.ofNat (hexDigit (b % 16))]

def encodeURIComponentChar (c : Char) : List Char :=
  if isUriUnreserved c.toNat = true then [c]
  else (utf8EncodeCodePoint c.toNat).flatMap percentEscape

/-- The built-in `encodeURIComponent`. -/
def encodeURIComponent (s : String) : String :=
  String.mk (s.data.flatMap encodeURIComponentChar)


/-- The bytes of the result of `encodeURIComponent`. -/
def encodedBytes (q : List Char) : List Nat :=
  q.flatMap (fun c =>
    if isUriUnreserved c.toNat = true then [c.toNat]
    else (utf8EncodeCodePoint c.toNat).flatMap
      (fun b => [0x25, hexDigit (b / 16), hexDigit (b % 16)]))

/-- The bytes of `search=`. -/
def searchKeyBytes : List Nat := utf8Encode "search=".data

/-! ## Strings -/

/-- The method `substring(start)`. -/
def substring (s : String) (start : Nat) : String :=
  String.mk (s.data.drop start)

/-- The white space and line terminators that `trim()` removes. -/
def isJSWhiteSpace (c : Char) : Bool :=
  c.toNat = 0x09 || c.toNat = 0x0A || c.toNat = 0x0B || c.toNat = 0x0C || c.toNat = 0x0D
    || c.toNat = 0x20 || c.toNat = 0xA0 || c.toNat = 0x1680
    || (0x2000 ≤ c.toNat && c.toNat ≤ 0x200A) || c.toNat = 0x2028 || c.toNat = 0x2029
    || c.toNat = 0x202F || c.toNat = 0x205F || c.toNat = 0x3000 || c.toNat = 0xFEFF

/-- The method `trim()`. -/
def jsTrim (s : String) : String :=
  String.mk ((s.data.dropWhile isJSWhiteSpace).reverse.dropWhile isJSWhiteSpace).reverse

/-- The value sanitization of a text input: line feeds and carriage returns are
stripped. -/
def sanitizeInputValue (value : String) : String :=
  String.mk (value.data.filter (fun c => c.toNat ≠ 0x0A ∧ c.toNat ≠ 0x0D))

/-- A trimmed string: neither its first nor its last character is white
space. -/
def IsTrimmed (s : String) : Prop :=
  (∀ c, s.data.head? = some c → isJSWhiteSpace c = false)
    ∧ (∀ c, s.data.getLast? = some c → isJSWhiteSpace c = false)

/-! ## The controller -/

/-- The markup of the error panel up to the message. -/
def errorMarkupBefore : String :=
  "\n"
    ++ "    <div class=\"col-span-full py-12 text-center\">\n"
    ++ "      <svg class=\"mx-auto h-16 w-16 text-red-500\" fill=\"none\" viewBox=\"0 0 24 24\" stroke=\"currentColor\">\n"
    ++ "        <path stroke-linecap=\"round\" stroke-linejoin=\"round\" stroke-width=\"1.5\" \n"
    ++ "              d=\"M12 9v3.75m9.344-2.198c-.109.63-.5 1.146-1.025 1.404a1.1 1.1 0 0 1-.55.165c-.49 0-.908-.257-1.14-.476-.364-.344-.47-.877-.338-1.33L19.4 5.5l1.293 1.293c.282.283.454.668.477 1.068a1.75 1.75 0 0 1-.45 1.35l-8.3 10.166a1.75 1.75 0 0 1-2.716.002l-8.301-10.17a1.75 1.75 0 0 1 .048-2.417l1.29-1.293L3.5 5.5c.1.529.21 1.087-.339 1.439-.236.22-.653.475-1.14.475a1.1 1.1 0 0 1-.55-.164c-.525-.259-.916-.775-1.027-1.408a1.738 1.738 0 0 1 .314-1.377l2.156-2.92c.326-.44.836-.7 1.378-.7h14.012c.543 0 1.052.26 1.378.7l2.156 2.92c.375.508.457 1.161.27 1.74l-.088.332\" />\n"
    ++ "      </svg>\n"
    ++ "      <h3 class=\"mt-4 text-xl font-semibold text-gray-800\">Error</h3>\n"
    ++ "      <p class=\"mt-2 text-gray-600\">"

/-- The markup of the error panel after the message. -/
def errorMarkupAfter : String :=
  "</p>\n"
    ++ "      <button id=\"retry-button\" class=\"mt-4 inline-flex items-center px-4 py-2 border border-transparent text-sm font-medium rounded-md shadow-sm text-white bg-indigo-600 hover:bg-indigo-700 focus:outline-none focus:ring-2 focus:ring-offset-2 focus:ring-indigo-500\">\n"
    ++ "        Retry\n"
    ++ "      </button>\n"
    ++ "    </div>\n"
    ++ "  "

/-- The function `showErrorState(message)`: nothing without `#results-grid`;
otherwise the message is escaped, the error panel replaces the content of the
grid and the retry button, which the panel contains, gets its listener. -/
def showErrorState {α : Type} (env : Env α) (message : String) (s : AppState α) :
    Except Thrown Unit × AppState α :=
  match s.dom.resultsGrid with
  | none => (.ok (), s)
  | some _ =>
    match env.escapeHTMLThrows message with
    | some thrown => (.error thrown, s)
    | none =>
      (.ok (),
        ({ s with
            dom := { s.dom with
              resultsGrid :=
                some (errorMarkupBefore ++ env.escapeHTML message ++ errorMarkupAfter) } }
          ).log .retryListenerAdded)

/-- The `try` block of `updateDisplayedResults`: the text search when the query
is not empty, the settings read from the controls when the current ones have no
key, the filters, the display of the result and the summary. An exception ends
the block where it is thrown and keeps what was assigned before. -/
def updateDisplayedResultsTry {α : Type} (env : Env α) (s : AppState α) :
    Except Thrown Unit × AppState α :=
  match (if s.currentSearchQuery ≠ "" then
      env.filterModelsBySearchQuery s.loadedModels s.currentSearchQuery
    else .ok s.loadedModels) with
  | .error thrown => (.error thrown, s)
  | .ok searched =>
    match (if s.currentFilterSettings.keyCount = 0 then env.readCurrentFilterSettings
      else .ok s.currentFilterSettings) with
    | .error thrown => (.error thrown, s)
    | .ok settings =>
      match env.applyAllActiveFilters searched settings with
      | .error thrown => (.error thrown, { s with currentFilterSettings := settings })
      | .ok filteredModels =>
        match env.displaySearchResults filteredModels with
        | .error thrown =>
          (.error thrown,
            ({ s with currentFilterSettings := settings }).log
              (.displaySearchResults filteredModels))
        | .ok _ =>
          match updateResultSummaryThrows env.escapeHTMLThrows s.currentSearchQuery s.dom with
          | some thrown =>
            (.error thrown,
              ({ s with currentFilterSettings := settings }).log
                (.displaySearchResults filteredModels))
          | none =>
            (.ok (),
              { s with
                currentFilterSettings := settings
                trace := s.trace ++ [.displaySearchResults filteredModels]
                dom := updateResultSummary env.escapeHTML filteredModels.length
                  s.currentSearchQuery settings s.dom })

/-- The `catch` block of `updateDisplayedResults`: the thrown value is logged,
its `message` is read, which throws for `null` and `undefined`, and the error
state is shown. -/
def updateDisplayedResultsCatch {α : Type} (env : Env α) (thrown : Thrown) (s : AppState α) :
    Except Thrown Unit × AppState α :=
  match thrown with
  | .nullish =>
    (.error messageOfNullError, s.log (.consoleError "Error updating results:" thrown))
  | .error error =>
    showErrorState env ("Error filtering results: " ++ error.message)
      (s.log (.consoleError "Error updating results:" thrown))

/-- The function `updateDisplayedResults()`: the loading state is shown, the
`try` block runs, the `catch` block handles what it throws, and the loading
state is hidden in every case, also when the `catch` block throws. -/
def updateDisplayedResults {α : Type} (env : Env α) (s : AppState α) :
    Except Thrown Unit × AppState α :=
  match updateDisplayedResultsTry env (s.log .showLoadingState) with
  | (.ok _, s1) => (.ok (), s1.log .hideLoadingState)
  | (.error thrown, s1) =>
    ((updateDisplayedResultsCatch env thrown s1).1,
      (updateDisplayedResultsCatch env thrown s1).2.log .hideLoadingState)

/-- The function `processUrlParameters()`, for the value `hash` of
`window.location.hash`. The tests `if (modelName)` and `if (searchQuery)` hold
for a value that is neither `null` nor the empty string. The query is read
back from the search input, and so is the sanitized value. -/
def processUrlParameters {α : Type} (env : Env α) (hash : String) (s : AppState α) :
    Except Thrown Unit × AppState α :=
  if hash ≠ "" then
    match (URLSearchParams.get (URLSearchParams (substring hash 1)) "model").filter
        (fun modelName => modelName ≠ "") with
    | some modelName =>
      match decodeURIComponent modelName with
      | .error error => (.error error, s)
      | .ok decoded => (env.displayModelDetail decoded, s.log (.displayModelDetail decoded))
    | none =>
      match (URLSearchParams.get (URLSearchParams (substring hash 1)) "search").filter
          (fun searchQuery => searchQuery ≠ "") with
      | some searchQuery =>
        match s.dom.searchInput with
        | some _ =>
          match decodeURIComponent searchQuery with
          | .error error => (.error error, s)
          | .ok decoded =>
            updateDisplayedResults env
              { s with
                dom := { s.dom with searchInput := some (sanitizeInputValue decoded) }
                currentSearchQuery := sanitizeInputValue decoded }
        | none => (.ok (), s)
      | none => (.ok (), s)
  else (.ok (), s)

/-- The click listener of `#search-button`. -/
def onSearchButtonClick {α : Type} (env : Env α) (s : AppState α) :
    Except Thrown Unit × AppState α :=
  match s.dom.searchInput with
  | some value => updateDisplayedResults env { s with currentSearchQuery := jsTrim value }
  | none => (.ok (), s)

/-- The keyup listener of `#search-input`, which exists only with the
element. -/
def onSearchInputKeyup {α : Type} (env : Env α) (key : String) (s : AppState α) :
    Except Thrown Unit × AppState α :=
  match s.dom.searchInput with
  | some value =>
    if key = "Enter" then
      updateDisplayedResults env { s with currentSearchQuery := jsTrim value }
    else (.ok (), s)
  | none => (.ok (), s)

/-- The click listener of `#apply-filters`. -/
def onApplyFiltersClick {α : Type} (env : Env α) (s : AppState α) :
    Except Thrown Unit × AppState α :=
  match env.readCurrentFilterSettings with
  | .error error => (.error error, s)
  | .ok settings => updateDisplayedResults env { s with currentFilterSettings := settings }

/-- The change listener of `#sort-by`, for the selected `value`. -/
def onSortChange {α : Type} (env : Env α) (value : String) (s : AppState α) :
    Except Thrown Unit × AppState α :=
  updateDisplayedResults env
    { s with currentFilterSettings := { s.currentFilterSettings with sortBy := some value } }

/-- The `hashchange` listener. -/
def onHashChange {α : Type} (env : Env α) (hash : String) (s : AppState α) :
    Except Thrown Unit × AppState α :=
  processUrlParameters env hash s

/-- The state after the script is read and the catalog is loaded. -/
def initialState {α : Type} (models : List α) (dom : Dom) : AppState α :=
  { currentSearchQuery := "", currentFilterSettings := {}, loadedModels := models,
    dom := dom, trace := [] }

/-- What `updateDisplayedResults` hands to the presentation when nothing
throws: the loading state, the result sequence, the loading state hidden, and
the count of the sequence in `#result-count`. -/
def Presents {α : Type} (before after : AppState α) (result : List α) : Prop :=
  after.trace
      = before.trace ++ [.showLoadingState, .displaySearchResults result, .hideLoadingState]
    ∧ after.dom.resultCount = some (countText result.length)

/-- The text search returns `searched`: the catalog for an empty query, what
`filterModelsBySearchQuery` returns otherwise. -/
def SearchReturns {α : Type} (env : Env α) (s : AppState α) (searched : List α) : Prop :=
  (s.currentSearchQuery = "" ∧ searched = s.loadedModels)
    ∨ (s.currentSearchQuery ≠ ""
      ∧ env.filterModelsBySearchQuery s.loadedModels s.currentSearchQuery = .ok searched)

/-- The settings in force are `settings`: the current ones when they have a key,
what `readCurrentFilterSettings` returns otherwise. -/
def SettingsAre {α : Type} (env : Env α) (s : AppState α) (settings : FilterSettings) : Prop :=
  (s.currentFilterSettings.keyCount ≠ 0 ∧ settings = s.currentFilterSettings)
    ∨ (s.currentFilterSettings.keyCount = 0 ∧ env.readCurrentFilterSettings = .ok settings)

/-- A failure is raised while the query and the filters are evaluated: the text
search, the reading of the settings, the filter application, the display of the
result or the update of the summary throws `thrown`, what comes before it
having returned. -/
inductive TryStepThrows {α : Type} (env : Env α) (s : AppState α) (thrown : Thrown) : Prop where
  | textSearch (hQuery : s.currentSearchQuery ≠ "")
      (hThrow : env.filterModelsBySearchQuery s.loadedModels s.currentSearchQuery
        = .error thrown)
  | settingsRead (searched : List α) (hSearch : SearchReturns env s searched)
      (hKeys : s.currentFilterSettings.keyCount = 0)
      (hThrow : env.readCurrentFilterSettings = .error thrown)
  | filterApplication (searched : List α) (settings : FilterSettings)
      (hSearch : SearchReturns env s searched) (hSettings : SettingsAre env s settings)
      (hThrow : env.applyAllActiveFilters searched settings = .error thrown)
  | resultDisplay (searched filtered : List α) (settings : FilterSettings)
      (hSearch : SearchReturns env s searched) (hSettings : SettingsAre env s settings)
      (hFilter : env.applyAllActiveFilters searched settings = .ok filtered)
      (hThrow : env.displaySearchResults filtered = .error thrown)
  | summaryUpdate (searched filtered : List α) (settings : FilterSettings)
      (hSearch : SearchReturns env s searched) (hSettings : SettingsAre env s settings)
      (hFilter : env.applyAllActiveFilters searched settings = .ok filtered)
      (hDisplay : env.displaySearchResults filtered = .ok ())
      (hHeading : s.dom.resultHeading ≠ none) (hCount : s.dom.resultCount ≠ none)
      (hQuery : s.currentSearchQuery ≠ "")
      (hThrow : env.escapeHTMLThrows s.currentSearchQuery = some thrown)

/-- The scripts of a regular environment: `escapeHTML` always returns, and what
the query functions and the display throw is never `null` or `undefined`. -/
def Env.Regular {α : Type} (env : Env α) : Prop :=
  (∀ text, env.escapeHTMLThrows text = none)
    ∧ (∀ models query, env.filterModelsBySearchQuery models query ≠ .error .nullish)
    ∧ env.readCurrentFilterSettings ≠ .error .nullish
    ∧ (∀ models settings, env.applyAllActiveFilters models settings ≠ .error .nullish)
    ∧ (∀ models, env.displaySearchResults models ≠ .error .nullish)

/-! ## A concrete environment -/

/-- Modelled from the spec: the model descriptor of the data model (the other
scripts and the catalog are not part of `app.js`), with a name, a cost, the two
pricing flags and the three tag lists. -/
structure ModelDescriptor where
  name : String
  cost : ℚ
  free : Bool
  freeTrial : Bool
  capabilities : List String
  inputTypes : List String
  outputTypes : List String
deriving DecidableEq

/-- Tells whether `needle` occurs in `hay` as a contiguous piece. -/
def containsSubstring (needle : List Char) : List Char → Bool
  | [] => needle.isPrefixOf []
  | c :: hay => needle.isPrefixOf (c :: hay) || containsSubstring needle hay

/-- Modelled from the spec: the text search step of the query engine, which is
`filterModelsBySearchQuery` of another script: a descriptor stays when its name
contains the query, letter case apart. -/
def specFilterModelsBySearchQuery (models : List ModelDescriptor) (query : String) :
    List ModelDescriptor :=
  models.filter (fun m =>
    containsSubstring (query.data.map Char.toLower) (m.name.data.map Char.toLower))

/-- Modelled from the spec: a facet predicate of the filter step: no selection
keeps every descriptor, a selection keeps those with one of the selected
tags. -/
def specFacetMatches (selected : Option (List String)) (tags : List String) : Bool :=
  match selected with
  | none => true
  | some [] => true
  | some sel => sel.any (fun tag => tags.contains tag)

/-- Modelled from the spec: the budget predicate of the filter step: a number
caps the cost, anything else is no cap. -/
def specWithinBudget (maxBudget : Option BudgetValue) (cost : ℚ) : Bool :=
  match maxBudget with
  | some (.number (.finite q)) => decide (cost ≤ q)
  | some (.number .negInf) => false
  | _ => true

/-- Modelled from the spec: the filter step of the query engine, which is
`applyAllActiveFilters` of another script: the predicates of the settings,
combined by conjunction. The sort step, which neither adds nor removes a
descriptor, is left out. -/
def specApplyAllActiveFilters (models : List ModelDescriptor) (f : FilterSettings) :
    List ModelDescriptor :=
  models.filter (fun m =>
    (!(f.freeOnly.getD false) || m.free) && (!(f.freeTrials.getD false) || m.freeTrial)
      && specFacetMatches f.capabilities m.capabilities
      && specFacetMatches f.inputTypes m.inputTypes
      && specFacetMatches f.outputTypes m.outputTypes
      && specWithinBudget f.maxBudget m.cost)

/-- Modelled from the spec: the HTML-escaping utility `escapeHTML` of another
script, which replaces the five characters that are special in markup. -/
def specEscapeHTML (s : String) : String :=
  String.mk (s.data.flatMap (fun c =>
    if c = '&' then "&amp;".data
    else if c = '<' then "&lt;".data
    else if c = '>' then "&gt;".data
    else if c = '"' then "&quot;".data
    else if c.toNat = 0x27 then "&#39;".data
    else [c]))

/-- Modelled from the spec: the other scripts, for controls that currently show
`controls`: `readCurrentFilterSettings` returns what the controls show, and the
presentation functions return normally. -/
def specEnv (controls : FilterSettings) : Env ModelDescriptor where
  escapeHTML := specEscapeHTML
  escapeHTMLThrows := fun _ => none
  filterModelsBySearchQuery := fun models query =>
    .ok (specFilterModelsBySearchQuery models query)
  applyAllActiveFilters := fun models f => .ok (specApplyAllActiveFilters models f)
  readCurrentFilterSettings := .ok controls
  displaySearchResults := fun _ => .ok ()
  displayModelDetail := fun _ => .ok ()

/-- The catalog of the scenarios of the specification: a free model `A` of cost
10 and a paid model `B` of cost 40. -/
def scenarioCatalog : List ModelDescriptor :=
  [ { name := "A", cost := 10, free := true, freeTrial := false,
      capabilities := [], inputTypes := [], outputTypes := [] },
    { name := "B", cost := 40, free := false, freeTrial := false,
      capabilities := [], inputTypes := [], outputTypes := [] } ]

/-- A document with the four elements, all of them empty. -/
def scenarioDom : Dom :=
  { searchInput := some "", resultHeading := some "", resultCount := some "",
    resultsGrid := some "" }

/-- An environment whose filter step throws a `TypeError`. -/
def failingEnv : Env ModelDescriptor :=
  { specEnv {} with
    applyAllActiveFilters := fun _ _ =>
      .error (.error ⟨"TypeError", "models.filter is not a function"⟩) }

/-- An environment whose filter step throws `null`. -/
def nullThrowingEnv : Env ModelDescriptor :=
  { specEnv {} with applyAllActiveFilters := fun _ _ => .error .nullish }

/-- An environment whose `escapeHTML` throws on every text. -/
def throwingEscapeEnv : Env ModelDescriptor :=
  { specEnv {} with
    escapeHTMLThrows := fun _ => some (.error ⟨"TypeError", "cannot escape"⟩) }

/-- An environment whose `escapeHTML` throws on the text `b` alone. -/
def partialEscapeEnv : Env ModelDescriptor :=
  { specEnv {} with
    escapeHTMLThrows := fun text =>
      if text = "b" then some (.error ⟨"TypeError", "cannot escape"⟩) else none }

/-! ## Lemmas on the result summary -/

theorem nonEmptyFacet_iff (o : Option (List String)) :
    nonEmptyFacet o = true ↔ ∃ l, o = some l ∧ l ≠ [] := by
  cases o with
  | none => simp [nonEmptyFacet]
  | some l => cases l <;> simp [nonEmptyFacet]

theorem budgetBelowFifty_iff (o : Option BudgetValue) :
    budgetBelowFifty o = true ↔ ∃ x, o = some (.number x) ∧ x.ltFifty = true := by
  cases o with
  | none => simp [budgetBelowFifty]
  | some v => cases v <;> simp [budgetBelowFifty]

theorem flag_iff (o : Option Bool) : o.getD false = true ↔ o = some true := by
  cases o with
  | none => simp
  | some b => cases b <;> simp

theorem hasActiveFilters_iff (f : FilterSettings) :
    hasActiveFilters f = true ↔ FilterActive f := by
  simp only [hasActiveFilters, FilterActive, Bool.or_eq_true, flag_iff, nonEmptyFacet_iff,
    budgetBelowFifty_iff, or_assoc]

/-! ## Lemmas on the recomputation -/

theorem updateResultSummary_searchInput (esc : String → String) (n : Nat) (q : String)
    (f : FilterSettings) (dom : Dom) :
    (updateResultSummary esc n q f dom).searchInput = dom.searchInput
      ∧ (updateResultSummary esc n q f dom).resultsGrid = dom.resultsGrid := by
  unfold updateResultSummary
  split <;> simp

theorem updateResultSummary_count (esc : String → String) (n : Nat) (q : String)
    (f : FilterSettings) (dom : Dom) (hHeading : dom.resultHeading ≠ none)
    (hCount : dom.resultCount ≠ none) :
    (updateResultSummary esc n q f dom).resultCount = some (countText n)
      ∧ (updateResultSummary esc n q f dom).resultHeading = some (headingText esc q f) := by
  unfold updateResultSummary
  split
  · simp
  · rename_i h
    cases hh : dom.resultHeading with
    | none => exact absurd hh hHeading
    | some a =>
      cases hc : dom.resultCount with
      | none => exact absurd hc hCount
      | some b => exact absurd hc (h a b hh)

theorem updateResultSummaryThrows_of_empty (throws : String → Option Thrown) (dom : Dom) :
    updateResultSummaryThrows throws "" dom = none := by
  unfold updateResultSummaryThrows
  split <;> simp

theorem updateResultSummaryThrows_of_none (throws : String → Option Thrown) (q : String)
    (dom : Dom) (h : throws q = none) : updateResultSummaryThrows throws q dom = none := by
  unfold updateResultSummaryThrows
  split
  · split_ifs
    · exact h
    · rfl
  · rfl

theorem updateResultSummaryThrows_regular {α : Type} (env : Env α) (hReg : env.Regular)
    (q : String) (dom : Dom) : updateResultSummaryThrows env.escapeHTMLThrows q dom = none :=
  updateResultSummaryThrows_of_none _ _ _ (hReg.1 q)

theorem showErrorState_query {α : Type} (env : Env α) (message : String) (s : AppState α) :
    (showErrorState env message s).2.currentSearchQuery = s.currentSearchQuery := by
  unfold showErrorState
  split
  · rfl
  · split <;> simp [AppState.log]

theorem showErrorState_settings {α : Type} (env : Env α) (message : String) (s : AppState α) :
    (showErrorState env message s).2.currentFilterSettings = s.currentFilterSettings := by
  unfold showErrorState
  split
  · rfl
  · split <;> simp [AppState.log]

theorem showErrorState_models {α : Type} (env : Env α) (message : String) (s : AppState α) :
    (showErrorState env message s).2.loadedModels = s.loadedModels := by
  unfold showErrorState
  split
  · rfl
  · split <;> simp [AppState.log]

/-- With the grid and an `escapeHTML` that returns, the error panel is shown. -/
theorem showErrorState_shown {α : Type} (env : Env α) (message : String) (s : AppState α)
    (hGrid : s.dom.resultsGrid ≠ none) (hEscape : env.escapeHTMLThrows message = none) :
    showErrorState env message s
      = (.ok (),
          ({ s with
              dom := { s.dom with
                resultsGrid :=
                  some (errorMarkupBefore ++ env.escapeHTML message ++ errorMarkupAfter) } }
            ).log .retryListenerAdded) := by
  unfold showErrorState
  cases hg : s.dom.resultsGrid with
  | none => exact absurd hg hGrid
  | some g => simp [hEscape]

/-- The `catch` block assigns none of the three variables. -/
theorem updateDisplayedResultsCatch_frame {α : Type} (env : Env α) (thrown : Thrown)
    (s : AppState α) :
    (updateDisplayedResultsCatch env thrown s).2.currentSearchQuery = s.currentSearchQuery
      ∧ (updateDisplayedResultsCatch env thrown s).2.currentFilterSettings
        = s.currentFilterSettings
      ∧ (updateDisplayedResultsCatch env thrown s).2.loadedModels = s.loadedModels := by
  cases thrown with
  | nullish => exact ⟨rfl, rfl, rfl⟩
  | error e =>
    simp [updateDisplayedResultsCatch, showErrorState_query, showErrorState_settings,
      showErrorState_models, AppState.log]

/-- The `try` block assigns neither the query nor the catalog, and it leaves
`#results-grid` alone. -/
theorem updateDisplayedResultsTry_frame {α : Type} (env : Env α) (s : AppState α) :
    (updateDisplayedResultsTry env s).2.currentSearchQuery = s.currentSearchQuery
      ∧ (updateDisplayedResultsTry env s).2.loadedModels = s.loadedModels
      ∧ (updateDisplayedResultsTry env s).2.dom.resultsGrid = s.dom.resultsGrid := by
  unfold updateDisplayedResultsTry
  split
  · simp
  · split
    · simp
    · split
      · simp
      · split
        · simp [AppState.log]
        · split
          · simp [AppState.log]
          · simp [updateResultSummary_searchInput]

/-- The `try` block keeps settings that have a key. -/
theorem updateDisplayedResultsTry_settings {α : Type} (env : Env α) (s : AppState α)
    (hKeys : s.currentFilterSettings.keyCount ≠ 0) :
    (updateDisplayedResultsTry env s).2.currentFilterSettings = s.currentFilterSettings := by
  unfold updateDisplayedResultsTry
  split
  · simp
  · simp only [hKeys, if_false]
    simp only [AppState.log]
    split
    · simp
    · split
      · simp
      · split <;> simp

/-- A recomputation assigns neither the query nor the catalog. -/
theorem updateDisplayedResults_frame {α : Type} (env : Env α) (s : AppState α) :
    (updateDisplayedResults env s).2.currentSearchQuery = s.currentSearchQuery
      ∧ (updateDisplayedResults env s).2.loadedModels = s.loadedModels := by
  have h := updateDisplayedResultsTry_frame env (s.log .showLoadingState)
  unfold updateDisplayedResults
  generalize updateDisplayedResultsTry env (s.log .showLoadingState) = r at h
  obtain ⟨c, s1⟩ := r
  cases c with
  | ok u => exact ⟨h.1, h.2.1⟩
  | error e =>
    have hc := updateDisplayedResultsCatch_frame env e s1
    refine ⟨?_, ?_⟩
    · simp only [AppState.log]
      rw [hc.1]
      exact h.1
    · simp only [AppState.log]
      rw [hc.2.2]
      exact h.2.1

/-- A recomputation keeps settings that have a key. -/
theorem updateDisplayedResults_settings {α : Type} (env : Env α) (s : AppState α)
    (hKeys : s.currentFilterSettings.keyCount ≠ 0) :
    (updateDisplayedResults env s).2.currentFilterSettings = s.currentFilterSettings := by
  have h := updateDisplayedResultsTry_settings env (s.log .showLoadingState) hKeys
  unfold updateDisplayedResults
  generalize updateDisplayedResultsTry env (s.log .showLoadingState) = r at h
  obtain ⟨c, s1⟩ := r
  cases c with
  | ok u => exact h
  | error e =>
    have hc := updateDisplayedResultsCatch_frame env e s1
    simp only [AppState.log]
    rw [hc.2.1]
    exact h

/-- Settings with a `sortBy` key have a key. -/
theorem keyCount_sortBy (f : FilterSettings) (value : String) :
    ({ f with sortBy := some value } : FilterSettings).keyCount ≠ 0 := by
  simp [FilterSettings.keyCount]

theorem searchReturns_iff {α : Type} (env : Env α) (s : AppState α) (searched : List α) :
    SearchReturns env s searched
      ↔ (if s.currentSearchQuery ≠ "" then
          env.filterModelsBySearchQuery s.loadedModels s.currentSearchQuery
        else .ok s.loadedModels) = .ok searched := by
  unfold SearchReturns
  by_cases hq : s.currentSearchQuery = ""
  · simp [hq, eq_comm]
  · simp [hq]

theorem settingsAre_iff {α : Type} (env : Env α) (s : AppState α) (settings : FilterSettings) :
    SettingsAre env s settings
      ↔ (if s.currentFilterSettings.keyCount = 0 then env.readCurrentFilterSettings
        else .ok s.currentFilterSettings) = .ok settings := by
  unfold SettingsAre
  by_cases hk : s.currentFilterSettings.keyCount = 0
  · simp [hk]
  · simp [hk, eq_comm]

theorem updateResultSummaryThrows_of_some (throws : String → Option Thrown) (q : String)
    (dom : Dom) (hHeading : dom.resultHeading ≠ none) (hCount : dom.resultCount ≠ none)
    (hq : q ≠ "") : updateResultSummaryThrows throws q dom = throws q := by
  unfold updateResultSummaryThrows
  split
  · simp [hq]
  · rename_i h
    cases hh : dom.resultHeading with
    | none => exact absurd hh hHeading
    | some a =>
      cases hc : dom.resultCount with
      | none => exact absurd hc hCount
      | some b => exact absurd hc (h a b hh)

/-- What the `try` block does when nothing throws. -/
theorem updateDisplayedResultsTry_ok {α : Type} (env : Env α) (s : AppState α)
    (searched filtered : List α) (settings : FilterSettings)
    (hSearch : SearchReturns env s searched) (hSettings : SettingsAre env s settings)
    (hFilter : env.applyAllActiveFilters searched settings = .ok filtered)
    (hDisplay : env.displaySearchResults filtered = .ok ())
    (hSummary : updateResultSummaryThrows env.escapeHTMLThrows s.currentSearchQuery s.dom
      = none) :
    updateDisplayedResultsTry env s
      = (.ok (),
          { s with
            currentFilterSettings := settings
            trace := s.trace ++ [.displaySearchResults filtered]
            dom := updateResultSummary env.escapeHTML filtered.length
              s.currentSearchQuery settings s.dom }) := by
  rw [searchReturns_iff] at hSearch
  rw [settingsAre_iff] at hSettings
  unfold updateDisplayedResultsTry
  rw [hSearch]
  simp only
  rw [hSettings]
  simp only
  rw [hFilter]
  simp only
  rw [hDisplay]
  simp only
  rw [hSummary]

/-- What a recomputation does when nothing throws. -/
theorem updateDisplayedResults_ok {α : Type} (env : Env α) (s : AppState α)
    (searched filtered : List α) (settings : FilterSettings)
    (hSearch : SearchReturns env s searched) (hSettings : SettingsAre env s settings)
    (hFilter : env.applyAllActiveFilters searched settings = .ok filtered)
    (hDisplay : env.displaySearchResults filtered = .ok ())
    (hSummary : updateResultSummaryThrows env.escapeHTMLThrows s.currentSearchQuery s.dom
      = none)
    (hHeading : s.dom.resultHeading ≠ none) (hCount : s.dom.resultCount ≠ none) :
    Presents s (updateDisplayedResults env s).2 filtered
      ∧ (updateDisplayedResults env s).2.currentFilterSettings = settings := by
  have h := updateDisplayedResultsTry_ok env (s.log .showLoadingState) searched filtered settings
    hSearch hSettings hFilter hDisplay hSummary
  unfold updateDisplayedResults
  rw [h]
  have hc := (updateResultSummary_count env.escapeHTML filtered.length s.currentSearchQuery
    settings s.dom hHeading hCount).1
  simp [Presents, AppState.log, hc]

/-- A step that throws makes the `try` block throw the same value. -/
theorem updateDisplayedResultsTry_throws {α : Type} (env : Env α) (s : AppState α)
    (thrown : Thrown) (hStep : TryStepThrows env s thrown) :
    (updateDisplayedResultsTry env s).1 = .error thrown := by
  unfold updateDisplayedResultsTry
  cases hStep with
  | textSearch hQuery hThrow =>
    rw [if_pos hQuery, hThrow]
  | settingsRead searched hSearch hKeys hThrow =>
    rw [(searchReturns_iff env s searched).1 hSearch]
    simp only
    rw [if_pos hKeys, hThrow]
  | filterApplication searched settings hSearch hSettings hThrow =>
    rw [(searchReturns_iff env s searched).1 hSearch]
    simp only
    rw [(settingsAre_iff env s settings).1 hSettings]
    simp only
    rw [hThrow]
  | resultDisplay searched filtered settings hSearch hSettings hFilter hThrow =>
    rw [(searchReturns_iff env s searched).1 hSearch]
    simp only
    rw [(settingsAre_iff env s settings).1 hSettings]
    simp only
    rw [hFilter]
    simp only
    rw [hThrow]
  | summaryUpdate searched filtered settings hSearch hSettings hFilter hDisplay hHeading
      hCount hQuery hThrow =>
    rw [(searchReturns_iff env s searched).1 hSearch]
    simp only
    rw [(settingsAre_iff env s settings).1 hSettings]
    simp only
    rw [hFilter]
    simp only
    rw [hDisplay]
    simp only
    rw [updateResultSummaryThrows_of_some _ _ _ hHeading hCount hQuery, hThrow]

/-- The steps of the `try` block do not read the trace. -/
theorem TryStepThrows.log {α : Type} {env : Env α} {s : AppState α} {thrown : Thrown}
    (hStep : TryStepThrows env s thrown) (e : Event α) : TryStepThrows env (s.log e) thrown := by
  cases hStep with
  | textSearch hQuery hThrow => exact .textSearch hQuery hThrow
  | settingsRead searched hSearch hKeys hThrow =>
    exact .settingsRead searched hSearch hKeys hThrow
  | filterApplication searched settings hSearch hSettings hThrow =>
    exact .filterApplication searched settings hSearch hSettings hThrow
  | resultDisplay searched filtered settings hSearch hSettings hFilter hThrow =>
    exact .resultDisplay searched filtered settings hSearch hSettings hFilter hThrow
  | summaryUpdate searched filtered settings hSearch hSettings hFilter hDisplay hHeading
      hCount hQuery hThrow =>
    exact .summaryUpdate searched filtered settings hSearch hSettings hFilter hDisplay hHeading
      hCount hQuery hThrow

/-- In a regular environment the `try` block throws neither `null` nor
`undefined`. -/
theorem updateDisplayedResultsTry_regular {α : Type} (env : Env α) (hReg : env.Regular)
    (s : AppState α) : (updateDisplayedResultsTry env s).1 ≠ .error .nullish := by
  obtain ⟨hEsc, hSearch, hRead, hFilter, hDisplay⟩ := hReg
  have hs : (if s.currentSearchQuery ≠ "" then
      env.filterModelsBySearchQuery s.loadedModels s.currentSearchQuery
    else .ok s.loadedModels) ≠ .error .nullish := by
    split_ifs
    · exact hSearch _ _
    · simp
  have hr : (if s.currentFilterSettings.keyCount = 0 then env.readCurrentFilterSettings
      else .ok s.currentFilterSettings) ≠ .error .nullish := by
    split_ifs
    · exact hRead
    · simp
  have hsum := updateResultSummaryThrows_of_none env.escapeHTMLThrows s.currentSearchQuery
    s.dom (hEsc _)
  unfold updateDisplayedResultsTry
  split
  · rename_i t h
    intro hc
    simp only [Except.error.injEq] at hc
    rw [hc] at h
    exact hs h
  · split
    · rename_i t h
      intro hc
      simp only [Except.error.injEq] at hc
      rw [hc] at h
      exact hr h
    · split
      · rename_i t h
        intro hc
        simp only [Except.error.injEq] at hc
        rw [hc] at h
        exact hFilter _ _ h
      · split
        · rename_i t h
          intro hc
          simp only [Except.error.injEq] at hc
          rw [hc] at h
          exact hDisplay _ h
        · rw [hsum]
          simp

/-- In a regular environment a recomputation returns normally. -/
theorem updateDisplayedResults_regular {α : Type} (env : Env α) (hReg : env.Regular)
    (s : AppState α) : (updateDisplayedResults env s).1 = .ok () := by
  have h := updateDisplayedResultsTry_regular env hReg (s.log .showLoadingState)
  unfold updateDisplayedResults
  generalize updateDisplayedResultsTry env (s.log .showLoadingState) = r at h
  obtain ⟨c, s1⟩ := r
  cases c with
  | ok u => rfl
  | error t =>
    cases t with
    | nullish => exact absurd rfl h
    | error e =>
      simp only [updateDisplayedResultsCatch]
      unfold showErrorState
      split
      · rfl
      · rw [hReg.1]

/-! ## Lemmas on UTF-8 and percent-encoding -/

theorem char_valid (c : Char) : c.toNat < 0xD800 ∨ (0xDFFF < c.toNat ∧ c.toNat < 0x110000) := by
  have := c.valid
  simp only [UInt32.isValidChar, Nat.isValidChar] at this
  exact this

theorem toNat_ofNat_of_lt (n : Nat) (h : n < 0xD800) : (Char.ofNat n).toNat = n := by
  have hv : n.isValidChar := Or.inl h
  simp [Char.ofNat, hv, Char.ofNatAux, Char.toNat]
  rfl


theorem hexDigit_spec : ∀ v : Fin 16,
    isHexDigit (hexDigit v.val) = true ∧ hexValue (hexDigit v.val) = v.val
      ∧ hexDigit v.val < 0x80 ∧ hexDigit v.val ≠ 0x25 ∧ hexDigit v.val ≠ 0x26
      ∧ hexDigit v.val ≠ 0x2B ∧ hexDigit v.val ≠ 0x3D := by
  decide

theorem percentDecode_cons_of_ne (b : Nat) (bs : List Nat) (h : b ≠ 0x25) :
    percentDecode (b :: bs) = b :: percentDecode bs := by
  match bs with
  | [] => simp [percentDecode]
  | [x] => simp [percentDecode]
  | x :: y :: rest => simp [percentDecode, h]

theorem percentDecode_escape (b : Nat) (bs : List Nat) (h : b < 256) :
    percentDecode (0x25 :: hexDigit (b / 16) :: hexDigit (b % 16) :: bs) = b :: percentDecode bs := by
  have h1 := hexDigit_spec ⟨b / 16, by omega⟩
  have h2 := hexDigit_spec ⟨b % 16, by omega⟩
  simp only at h1 h2
  simp only [percentDecode, h1.1, h2.1, h1.2.1, h2.2.1, and_self, if_true]
  congr 1
  omega


theorem utf8Lead_ascii (b : Nat) (h : b < 0x80) : utf8Lead b = some (.inl b) := by
  simp [utf8Lead]; omega

theorem utf8Lead_two (b : Nat) (h1 : 0xC2 ≤ b) (h2 : b ≤ 0xDF) :
    utf8Lead b = some (.inr ⟨b % 32, 1, 0x80, 0xBF⟩) := by
  have : ¬ b ≤ 0x7F := by omega
  simp [utf8Lead, this, h1, h2]

theorem utf8Lead_three (b : Nat) (h1 : 0xE0 ≤ b) (h2 : b ≤ 0xEF) :
    utf8Lead b = some (.inr ⟨b % 16, 2, if b = 0xE0 then 0xA0 else 0x80,
      if b = 0xED then 0x9F else 0xBF⟩) := by
  have h3 : ¬ b ≤ 0x7F := by omega
  have h4 : ¬ (0xC2 ≤ b ∧ b ≤ 0xDF) := by omega
  simp [utf8Lead, h3, h4, h1, h2]

theorem utf8Lead_four (b : Nat) (h1 : 0xF0 ≤ b) (h2 : b ≤ 0xF4) :
    utf8Lead b = some (.inr ⟨b % 8, 3, if b = 0xF0 then 0x90 else 0x80,
      if b = 0xF4 then 0x8F else 0xBF⟩) := by
  have h3 : ¬ b ≤ 0x7F := by omega
  have h4 : ¬ (0xC2 ≤ b ∧ b ≤ 0xDF) := by omega
  have h5 : ¬ (0xE0 ≤ b ∧ b ≤ 0xEF) := by omega
  simp [utf8Lead, h3, h4, h5, h1, h2]

theorem utf8DecodeFrom_continue (st : Utf8State) (b : Nat) (bs : List Nat)
    (hn : 1 < st.bytesNeeded) (hl : st.lower ≤ b) (hu : b ≤ st.upper) :
    utf8DecodeFrom st (b :: bs)
      = utf8DecodeFrom ⟨st.codePoint * 64 + b % 64, st.bytesNeeded - 1, 0x80, 0xBF⟩ bs := by
  have h0 : st.bytesNeeded ≠ 0 := by omega
  have h1 : st.bytesNeeded ≠ 1 := by omega
  have h2 : ¬ (b < st.lower ∨ st.upper < b) := by omega
  simp [utf8DecodeFrom, h0, h1, h2]

theorem utf8DecodeFrom_last (st : Utf8State) (b : Nat) (bs : List Nat)
    (hn : st.bytesNeeded = 1) (hl : st.lower ≤ b) (hu : b ≤ st.upper) :
    utf8DecodeFrom st (b :: bs)
      = (st.codePoint * 64 + b % 64) :: utf8DecodeFrom .initial bs := by
  have h2 : ¬ (b < st.lower ∨ st.upper < b) := by omega
  simp [utf8DecodeFrom, hn, h2]

theorem utf8DecodeFrom_lead (b : Nat) (bs : List Nat) :
    utf8DecodeFrom .initial (b :: bs)
      = match utf8Lead b with
        | none => 0xFFFD :: utf8DecodeFrom .initial bs
        | some (.inl c) => c :: utf8DecodeFrom .initial bs
        | some (.inr st1) => utf8DecodeFrom st1 bs := by
  simp [utf8DecodeFrom, Utf8State.initial]

theorem utf8DecodeFrom_encode (c : Nat) (hc : c < 0xD800 ∨ (0xDFFF < c ∧ c < 0x110000))
    (rest : List Nat) :
    utf8DecodeFrom .initial (utf8EncodeCodePoint c ++ rest)
      = c :: utf8DecodeFrom .initial rest := by
  unfold utf8EncodeCodePoint
  split_ifs with h1 h2 h3
  · simp only [List.singleton_append, utf8DecodeFrom_lead, utf8Lead_ascii c h1]
  · simp only [List.cons_append, List.nil_append, utf8DecodeFrom_lead]
    rw [utf8Lead_two _ (by omega) (by omega)]
    simp only
    rw [utf8DecodeFrom_last _ _ _ rfl (by simp only; omega) (by simp only; omega)]
    congr 1
    simp only
    omega
  · simp only [List.cons_append, List.nil_append, utf8DecodeFrom_lead]
    rw [utf8Lead_three _ (by omega) (by omega)]
    simp only
    rw [utf8DecodeFrom_continue _ _ _ (by simp) (by simp only; split_ifs <;> omega)
      (by simp only; split_ifs <;> omega)]
    rw [utf8DecodeFrom_last _ _ _ rfl (by simp only; omega) (by simp only; omega)]
    congr 1
    simp only
    omega
  · simp only [List.cons_append, List.nil_append, utf8DecodeFrom_lead]
    rw [utf8Lead_four _ (by omega) (by omega)]
    simp only
    rw [utf8DecodeFrom_continue _ _ _ (by simp) (by simp only; split_ifs <;> omega)
      (by simp only; split_ifs <;> omega)]
    rw [utf8DecodeFrom_continue _ _ _ (by simp) (by simp only; omega) (by simp only; omega)]
    rw [utf8DecodeFrom_last _ _ _ rfl (by simp only; omega) (by simp only; omega)]
    congr 1
    simp only
    omega


theorem utf8DecodeFrom_utf8Encode (q : List Char) (rest : List Nat) :
    (utf8DecodeFrom .initial (utf8Encode q ++ rest)).map Char.ofNat
      = q ++ (utf8DecodeFrom .initial rest).map Char.ofNat := by
  induction q with
  | nil => simp [utf8Encode]
  | cons c q ih =>
    have hstep : utf8Encode (c :: q) = utf8EncodeCodePoint c.toNat ++ utf8Encode q := by
      simp [utf8Encode]
    rw [hstep, List.append_assoc, utf8DecodeFrom_encode c.toNat (char_valid c)]
    simp only [List.map_cons, Char.ofNat_toNat, List.cons_append]
    rw [← ih]

/-- Decoding undoes encoding. -/
theorem utf8Decode_utf8Encode (q : List Char) : utf8Decode (utf8Encode q) = q := by
  have h := utf8DecodeFrom_utf8Encode q []
  simpa [utf8Decode, utf8DecodeFrom, Utf8State.initial] using h

/-- The octets of a code point are bytes. -/
theorem utf8EncodeCodePoint_lt (c : Nat) (hc : c < 0x110000) :
    ∀ b ∈ utf8EncodeCodePoint c, b < 256 := by
  unfold utf8EncodeCodePoint
  split_ifs <;> simp <;> omega

theorem isUriUnreserved_lt (n : Nat) (h : isUriUnreserved n = true) :
    n < 0x80 ∧ n ≠ 0x25 ∧ n ≠ 0x26 ∧ n ≠ 0x2B ∧ n ≠ 0x3D := by
  simp only [isUriUnreserved, Bool.or_eq_true, Bool.and_eq_true, decide_eq_true_eq] at h
  omega

theorem utf8Encode_percentEscape (b : Nat) (hb : b < 256) :
    utf8Encode (percentEscape b) = [0x25, hexDigit (b / 16), hexDigit (b % 16)] := by
  have h1 := hexDigit_spec ⟨b / 16, by omega⟩
  have h2 := hexDigit_spec ⟨b % 16, by omega⟩
  simp only at h1 h2
  have t1 := toNat_ofNat_of_lt (hexDigit (b / 16)) (by omega)
  have t2 := toNat_ofNat_of_lt (hexDigit (b % 16)) (by omega)
  have e1 : utf8EncodeCodePoint (hexDigit (b / 16)) = [hexDigit (b / 16)] := by
    simp [utf8EncodeCodePoint, h1.2.2.1]
  have e2 : utf8EncodeCodePoint (hexDigit (b % 16)) = [hexDigit (b % 16)] := by
    simp [utf8EncodeCodePoint, h2.2.2.1]
  have e0 : utf8EncodeCodePoint 37 = [0x25] := by decide
  simp [utf8Encode, percentEscape, t1, t2, e1, e2, e0]

theorem utf8Encode_append (a b : List Char) : utf8Encode (a ++ b) = utf8Encode a ++ utf8Encode b := by
  simp [utf8Encode]

theorem utf8Encode_flatMap_percentEscape (bs : List Nat) (hbs : ∀ b ∈ bs, b < 256) :
    utf8Encode (bs.flatMap percentEscape)
      = bs.flatMap (fun b => [0x25, hexDigit (b / 16), hexDigit (b % 16)]) := by
  induction bs with
  | nil => rfl
  | cons b bs ih =>
    simp only [List.flatMap_cons, utf8Encode_append]
    rw [utf8Encode_percentEscape b (hbs b (by simp)), ih (fun x hx => hbs x (by simp [hx]))]

theorem char_toNat_lt (c : Char) : c.toNat < 0x110000 := by
  have := char_valid c
  omega

theorem utf8Encode_encodeURIComponent (q : List Char) :
    utf8Encode (q.flatMap encodeURIComponentChar) = encodedBytes q := by
  induction q with
  | nil => rfl
  | cons c q ih =>
    simp only [List.flatMap_cons, utf8Encode_append, ih, encodedBytes]
    congr 1
    unfold encodeURIComponentChar
    split_ifs with h
    · have := (isUriUnreserved_lt _ h).1
      simp [utf8Encode, utf8EncodeCodePoint, this]
    · exact utf8Encode_flatMap_percentEscape _
        (utf8EncodeCodePoint_lt _ (char_toNat_lt c))

/-- No byte of an encoded component is `&`, `+` or `=`. -/
theorem encodedBytes_plain (q : List Char) :
    ∀ b ∈ encodedBytes q, b ≠ 0x26 ∧ b ≠ 0x2B ∧ b ≠ 0x3D := by
  intro b hb
  simp only [encodedBytes, List.mem_flatMap] at hb
  obtain ⟨c, _, hb⟩ := hb
  split_ifs at hb with h
  · simp only [List.mem_singleton] at hb
    subst hb
    have := isUriUnreserved_lt _ h
    exact ⟨this.2.2.1, this.2.2.2.1, this.2.2.2.2⟩
  · simp only [List.mem_flatMap] at hb
    obtain ⟨x, hx, hb⟩ := hb
    have hx256 := utf8EncodeCodePoint_lt _ (char_toNat_lt c) x hx
    have h1 := hexDigit_spec ⟨x / 16, by omega⟩
    have h2 := hexDigit_spec ⟨x % 16, by omega⟩
    simp only at h1 h2
    simp only [List.mem_cons, List.mem_singleton, List.not_mem_nil, or_false] at hb
    rcases hb with hb | hb | hb
    · subst hb; decide
    · subst hb; exact ⟨h1.2.2.2.2.1, h1.2.2.2.2.2.1, h1.2.2.2.2.2.2⟩
    · subst hb; exact ⟨h2.2.2.2.2.1, h2.2.2.2.2.2.1, h2.2.2.2.2.2.2⟩

theorem percentDecode_escapes (bs rest : List Nat) (hbs : ∀ b ∈ bs, b < 256) :
    percentDecode (bs.flatMap (fun b => [0x25, hexDigit (b / 16), hexDigit (b % 16)]) ++ rest)
      = bs ++ percentDecode rest := by
  induction bs with
  | nil => rfl
  | cons b bs ih =>
    simp only [List.flatMap_cons, List.cons_append, List.nil_append, List.append_assoc]
    rw [percentDecode_escape b _ (hbs b (by simp)), ih (fun x hx => hbs x (by simp [hx]))]

/-- Percent-decoding an encoded component yields the UTF-8 bytes of the
component. -/
theorem percentDecode_encodedBytes (q : List Char) :
    percentDecode (encodedBytes q) = utf8Encode q := by
  induction q with
  | nil => rfl
  | cons c q ih =>
    have hstep : encodedBytes (c :: q)
        = (if isUriUnreserved c.toNat = true then [c.toNat]
            else (utf8EncodeCodePoint c.toNat).flatMap
              (fun b => [0x25, hexDigit (b / 16), hexDigit (b % 16)])) ++ encodedBytes q := by
      simp [encodedBytes]
    have hstep2 : utf8Encode (c :: q) = utf8EncodeCodePoint c.toNat ++ utf8Encode q := by
      simp [utf8Encode]
    rw [hstep, hstep2]
    split_ifs with h
    · have hu := isUriUnreserved_lt _ h
      rw [List.singleton_append, percentDecode_cons_of_ne _ _ hu.2.1, ih]
      simp [utf8EncodeCodePoint, hu.1]
    · rw [percentDecode_escapes _ _ (utf8EncodeCodePoint_lt _ (char_toNat_lt c)), ih]


/-! ## Lemmas on the query-string parser -/

theorem splitOnByte_ne_nil (sep : Nat) (bs : List Nat) : splitOnByte sep bs ≠ [] := by
  cases bs with
  | nil => simp [splitOnByte]
  | cons b bs =>
    simp only [splitOnByte]
    split_ifs
    · simp
    · split <;> simp

theorem splitOnByte_cons (sep x : Nat) (bs : List Nat) :
    splitOnByte sep (x :: bs)
      = if x = sep then [] :: splitOnByte sep bs
        else
          match splitOnByte sep bs with
          | [] => [[x]]
          | h :: t => (x :: h) :: t := rfl

theorem splitOnByte_append (sep : Nat) (a b : List Nat) :
    splitOnByte sep (a ++ sep :: b) = splitOnByte sep a ++ splitOnByte sep b := by
  induction a with
  | nil => simp [splitOnByte]
  | cons x a ih =>
    rw [List.cons_append, splitOnByte_cons, splitOnByte_cons, ih]
    split_ifs
    · rfl
    · cases h : splitOnByte sep a with
      | nil => exact absurd h (splitOnByte_ne_nil sep a)
      | cons hd tl => rfl

theorem splitOnByte_of_not_mem (sep : Nat) (a : List Nat) (h : sep ∉ a) :
    splitOnByte sep a = [a] := by
  induction a with
  | nil => rfl
  | cons x a ih =>
    have hx : x ≠ sep := fun e => h (by simp [e])
    have ha : sep ∉ a := fun e => h (List.mem_cons_of_mem _ e)
    simp [splitOnByte, hx, ih ha]

theorem parseUrlencoded_append (a b : List Nat) :
    parseUrlencoded (a ++ 0x26 :: b) = parseUrlencoded a ++ parseUrlencoded b := by
  simp [parseUrlencoded, splitOnByte_append]

theorem parseUrlencoded_nil : parseUrlencoded [] = [] := by
  decide

theorem plusToSpace_of_not_mem (bs : List Nat) (h : 0x2B ∉ bs) : plusToSpace bs = bs := by
  induction bs with
  | nil => rfl
  | cons b bs ih =>
    have hb : b ≠ 0x2B := fun e => h (by simp [e])
    have hbs : 0x2B ∉ bs := fun e => h (List.mem_cons_of_mem _ e)
    have := ih hbs
    simp only [plusToSpace] at this ⊢
    simp [hb, this]

/-- Form decoding undoes `encodeURIComponent`. -/
theorem formDecode_encodedBytes (q : List Char) : formDecode (encodedBytes q) = String.mk q := by
  have hplus : 0x2B ∉ encodedBytes q := fun h => (encodedBytes_plain q _ h).2.1 rfl
  simp [formDecode, plusToSpace_of_not_mem _ hplus, percentDecode_encodedBytes,
    utf8Decode_utf8Encode]

theorem parseUrlencoded_search (q : List Char) :
    parseUrlencoded (searchKeyBytes ++ encodedBytes q) = [("search", String.mk q)] := by
  have hamp : 0x26 ∉ searchKeyBytes ++ encodedBytes q := by
    intro h
    rcases List.mem_append.1 h with h | h
    · revert h; decide
    · exact (encodedBytes_plain q _ h).1 rfl
  have hkey : searchKeyBytes = [0x73, 0x65, 0x61, 0x72, 0x63, 0x68, 0x3D] := by decide
  have hname : formDecode [0x73, 0x65, 0x61, 0x72, 0x63, 0x68] = "search" := by decide
  simp only [parseUrlencoded, splitOnByte_of_not_mem _ _ hamp, List.filterMap_cons,
    List.filterMap_nil]
  simp [parsePair, hkey, splitAtFirstByte, hname, formDecode_encodedBytes]

theorem get_append (a b : List (String × String)) (name : String) :
    URLSearchParams.get (a ++ b) name
      = (URLSearchParams.get a name).orElse (fun _ => URLSearchParams.get b name) := by
  induction a with
  | nil => simp [URLSearchParams.get]
  | cons p a ih =>
    obtain ⟨n, v⟩ := p
    simp only [List.cons_append, URLSearchParams.get]
    split_ifs
    · simp
    · exact ih


theorem dropQuestionMark_cons_of_ne (c : Char) (rest : List Char) (hc : c ≠ '?') :
    dropQuestionMark (c :: rest) = c :: rest := by
  unfold dropQuestionMark
  split
  · rename_i h; simp at h; exact absurd h.1 hc
  · rfl

theorem dropQuestionMark_append (a b : List Char) :
    dropQuestionMark (a ++ '&' :: b) = dropQuestionMark a ++ '&' :: b := by
  match a with
  | [] => simp [dropQuestionMark]
  | c :: a =>
    by_cases hc : c = '?'
    · subst hc; simp [dropQuestionMark]
    · simp only [List.cons_append]
      unfold dropQuestionMark
      split
      · rename_i h; simp at h; exact absurd h.1 hc
      · split
        · rename_i h; simp at h; exact absurd h.1 hc
        · rfl

theorem parseUrlencoded_search_then (q : List Char) (post : List Char)
    (hpost : post = [] ∨ ∃ p, post = '&' :: p) :
    URLSearchParams.get
        (parseUrlencoded (searchKeyBytes ++ encodedBytes q ++ utf8Encode post)) "search"
      = some (String.mk q) := by
  rcases hpost with h | ⟨p, h⟩
  · subst h
    simp [utf8Encode, parseUrlencoded_search, URLSearchParams.get]
  · subst h
    have hb : utf8Encode ('&' :: p) = 0x26 :: utf8Encode p := by
      have : utf8EncodeCodePoint 38 = [0x26] := by decide
      simp [utf8Encode, this]
    rw [hb, parseUrlencoded_append, parseUrlencoded_search]
    simp [URLSearchParams.get]

/-- The first `search` pair of a fragment carries the encoding of `q`: then
`get('search')` is `q`. -/
theorem get_search_of_encoded (pre post q : String)
    (hpre : pre = "" ∨ ∃ p : String, pre = p ++ "&")
    (hpost : post = "" ∨ ∃ p : String, post = "&" ++ p)
    (hfirst : URLSearchParams.get (URLSearchParams pre) "search" = none) :
    URLSearchParams.get
        (URLSearchParams (pre ++ "search=" ++ encodeURIComponent q ++ post)) "search"
      = some q := by
  have hpost2 : post.data = [] ∨ ∃ p, post.data = '&' :: p := by
    rcases hpost with h | ⟨p, h⟩
    · left; rw [h]
    · right; exact ⟨p.data, by rw [h]; rfl⟩
  have hq := parseUrlencoded_search_then q.data post.data hpost2
  have hkey : utf8Encode "search=".data = searchKeyBytes := rfl
  rcases hpre with h | ⟨p, h⟩
  · subst h
    have hd : ("" ++ "search=" ++ encodeURIComponent q ++ post).data
        = 's' :: ("earch=".data ++ (encodeURIComponent q).data ++ post.data) := by
      simp [String.data_append]
    have h2 : utf8Encode ('s' :: ("earch=".data ++ (encodeURIComponent q).data ++ post.data))
        = searchKeyBytes ++ encodedBytes q.data ++ utf8Encode post.data := by
      have : 's' :: ("earch=".data ++ (encodeURIComponent q).data ++ post.data)
          = "search=".data ++ (encodeURIComponent q).data ++ post.data := rfl
      rw [this, utf8Encode_append, utf8Encode_append, hkey]
      simp [encodeURIComponent, utf8Encode_encodeURIComponent]
    unfold URLSearchParams
    rw [hd, dropQuestionMark_cons_of_ne _ _ (by decide), h2]
    exact hq
  · subst h
    have hd : (p ++ "&" ++ "search=" ++ encodeURIComponent q ++ post).data
        = p.data ++ '&' :: ("search=".data ++ (encodeURIComponent q).data ++ post.data) := by
      simp [String.data_append]
    have hd2 : (p ++ "&").data = p.data ++ '&' :: [] := by
      simp [String.data_append]
    have hamp : utf8EncodeCodePoint '&'.toNat = [0x26] := by decide
    have hfirst2 : URLSearchParams.get
        (parseUrlencoded (utf8Encode (dropQuestionMark p.data))) "search" = none := by
      unfold URLSearchParams at hfirst
      rw [hd2, dropQuestionMark_append, utf8Encode_append] at hfirst
      have : utf8Encode ['&'] = 0x26 :: [] := by decide
      rw [this, parseUrlencoded_append, parseUrlencoded_nil, List.append_nil] at hfirst
      exact hfirst
    unfold URLSearchParams
    rw [hd, dropQuestionMark_append, utf8Encode_append]
    have h3 : utf8Encode ('&' :: ("search=".data ++ (encodeURIComponent q).data ++ post.data))
        = 0x26 :: (searchKeyBytes ++ encodedBytes q.data ++ utf8Encode post.data) := by
      have : '&' :: ("search=".data ++ (encodeURIComponent q).data ++ post.data)
          = ['&'] ++ ("search=".data ++ (encodeURIComponent q).data ++ post.data) := rfl
      rw [this, utf8Encode_append, utf8Encode_append, utf8Encode_append, hkey]
      have h4 : utf8Encode ['&'] = [0x26] := by decide
      rw [h4]
      simp [encodeURIComponent, utf8Encode_encodeURIComponent]
    rw [h3, parseUrlencoded_append, get_append, hfirst2]
    simpa using hq


/-! ## Lemmas on `decodeURIComponent` -/

theorem uriTokens_of_no_percent :
    ∀ cs : List Char, '%' ∉ cs → uriTokens cs = some (cs.map UriToken.lit)
  | [], _ => rfl
  | [c], h => by
    have hc : c ≠ '%' := fun e => h (by simp [e])
    simp [uriTokens, hc]
  | [c, d], h => by
    have hc : c ≠ '%' := fun e => h (by simp [e])
    have hd : d ≠ '%' := fun e => h (by simp [e])
    simp [uriTokens, hc, hd]
  | c :: h1 :: h2 :: rest, h => by
    have hc : c ≠ '%' := fun e => h (by simp [e])
    have hrest : '%' ∉ h1 :: h2 :: rest := fun e => h (List.mem_cons_of_mem _ e)
    have ih := uriTokens_of_no_percent (h1 :: h2 :: rest) hrest
    simp only [uriTokens, hc, if_false, ih]
    rfl

theorem uriAssemble_lit (cs : List Char) :
    uriAssemble .initial (cs.map UriToken.lit) = some cs := by
  induction cs with
  | nil => rfl
  | cons c cs ih => simp [uriAssemble, Utf8State.initial, ih] at ih ⊢

/-- A string without `%` decodes to itself. -/
theorem decodeURIComponent_of_no_percent (s : String) (h : '%' ∉ s.data) :
    decodeURIComponent s = .ok s := by
  unfold decodeURIComponent
  rw [uriTokens_of_no_percent s.data h]
  simp [uriAssemble_lit]

/-! ## Lemmas on strings and on the handlers -/

theorem substring_hash (x : String) : substring ("#" ++ x) 1 = x := by
  simp [substring, String.data_append]

theorem get_substring_empty (name : String) :
    URLSearchParams.get (URLSearchParams (substring "" 1)) name = none := by
  have h : URLSearchParams (substring "" 1) = [] := by decide
  rw [h]
  rfl

/-- What `trim()` returns is trimmed. -/
theorem jsTrim_isTrimmed (s : String) : IsTrimmed (jsTrim s) := by
  have hpre : ((s.data.dropWhile isJSWhiteSpace).reverse.dropWhile isJSWhiteSpace).reverse
      <+: s.data.dropWhile isJSWhiteSpace := by
    rw [← List.reverse_suffix, List.reverse_reverse]
    exact List.dropWhile_suffix _
  constructor
  · intro c hc
    simp only [jsTrim] at hc
    obtain ⟨t, ht⟩ := hpre
    have hhead : (s.data.dropWhile isJSWhiteSpace).head? = some c := by
      rw [← ht]
      cases hr : ((s.data.dropWhile isJSWhiteSpace).reverse.dropWhile isJSWhiteSpace).reverse with
      | nil => rw [hr] at hc; simp at hc
      | cons x r =>
        rw [hr] at hc
        simpa using hc
    have h := List.head?_dropWhile_not isJSWhiteSpace s.data
    rw [hhead] at h
    simpa using h
  · intro c hc
    simp only [jsTrim, List.getLast?_reverse] at hc
    have h := List.head?_dropWhile_not isJSWhiteSpace
      (s.data.dropWhile isJSWhiteSpace).reverse
    rw [hc] at h
    simpa using h

/-- The two search submissions leave a trimmed query whenever they assign
one. -/
theorem search_submission_trimmed {α : Type} (env : Env α) (key : String) (s : AppState α)
    (h : IsTrimmed s.currentSearchQuery) :
    IsTrimmed (onSearchButtonClick env s).2.currentSearchQuery
      ∧ IsTrimmed (onSearchInputKeyup env key s).2.currentSearchQuery := by
  constructor
  · unfold onSearchButtonClick
    split
    · rw [(updateDisplayedResults_frame env _).1]
      exact jsTrim_isTrimmed _
    · exact h
  · unfold onSearchInputKeyup
    split
    · split_ifs
      · rw [(updateDisplayedResults_frame env _).1]
        exact jsTrim_isTrimmed _
      · exact h
    · exact h

/-- Hiding the loading state is the last call of every recomputation, also of
one that throws. -/
theorem updateDisplayedResults_hides_loading {α : Type} (env : Env α) (s : AppState α) :
    (updateDisplayedResults env s).2.trace.getLast? = some .hideLoadingState := by
  unfold updateDisplayedResults
  split <;> simp [AppState.log]

/-- A value without line break passes the sanitization unchanged. -/
theorem sanitizeInputValue_of_no_line_break (q : String)
    (h : ∀ c ∈ q.data, c.toNat ≠ 0x0A ∧ c.toNat ≠ 0x0D) : sanitizeInputValue q = q := by
  unfold sanitizeInputValue
  have hf : q.data.filter (fun c => c.toNat ≠ 0x0A ∧ c.toNat ≠ 0x0D) = q.data := by
    rw [List.filter_eq_self]
    intro c hc
    simpa using h c hc
  rw [hf]

/-- The query `café b` is trimmed. -/
theorem isTrimmed_cafe : IsTrimmed "café b" := by
  constructor
  · intro c hc
    have : c = 'c' := by
      have h : "café b".data.head? = some 'c' := by decide
      rw [h] at hc
      exact (Option.some.inj hc).symm
    subst this
    decide
  · intro c hc
    have : c = 'b' := by
      have h : "café b".data.getLast? = some 'b' := by decide
      rw [h] at hc
      exact (Option.some.inj hc).symm
    subst this
    decide

/-- The environment of the scenarios is regular. -/
theorem specEnv_regular (controls : FilterSettings) : (specEnv controls).Regular := by
  refine ⟨fun _ => rfl, ?_, ?_, ?_, ?_⟩
  · intro models query h
    cases h
  · intro h
    cases h
  · intro models settings h
    cases h
  · intro models h
    cases h

/-- In `failingEnv` the filter application is the step that throws. -/
theorem failingEnv_step :
    TryStepThrows failingEnv (initialState scenarioCatalog scenarioDom)
      (.error ⟨"TypeError", "models.filter is not a function"⟩) :=
  .filterApplication scenarioCatalog {} (Or.inl ⟨rfl, rfl⟩) (Or.inr ⟨rfl, rfl⟩) rfl

/-- In `partialEscapeEnv`, with the query `b`, the summary update is the step
that throws. -/
theorem partialEscapeEnv_step :
    TryStepThrows partialEscapeEnv
      { initialState scenarioCatalog scenarioDom with currentSearchQuery := "b" }
      (.error ⟨"TypeError", "cannot escape"⟩) :=
  .summaryUpdate (scenarioCatalog.drop 1) (scenarioCatalog.drop 1) {}
    (Or.inr ⟨by decide, by decide⟩) (Or.inr ⟨rfl, rfl⟩) (by decide) rfl (by decide) (by decide)
    (by decide) (by decide)

/-! ## The claims -/

/-- Claim C1: with `#result-heading` and `#result-count` in the document,
`updateResultSummary` writes, for every count, query and settings, exactly one of
four headings: the query between quotes (as `escapeHTML` returns it) followed by
`with filters` for a non-empty query and an active filter, the query between
quotes alone for a non-empty query and no active filter, `Filtered AI Models`
for an empty query and an active filter, `All AI Models` otherwise; a filter is
active in the sense of `FilterActive`. -/
theorem updateResultSummary_heading (escapeHTML : String → String) (count : Nat)
    (searchQuery : String) (filters : FilterSettings) (dom : Dom)
    (hHeading : dom.resultHeading ≠ none) (hCount : dom.resultCount ≠ none) :
    (searchQuery ≠ "" → FilterActive filters →
        (updateResultSummary escapeHTML count searchQuery filters dom).resultHeading
          = some ("Results for \"" ++ escapeHTML searchQuery ++ "\" with filters"))
      ∧ (searchQuery ≠ "" → ¬ FilterActive filters →
        (updateResultSummary escapeHTML count searchQuery filters dom).resultHeading
          = some ("Results for \"" ++ escapeHTML searchQuery ++ "\""))
      ∧ (searchQuery = "" → FilterActive filters →
        (updateResultSummary escapeHTML count searchQuery filters dom).resultHeading
          = some "Filtered AI Models")
      ∧ (searchQuery = "" → ¬ FilterActive filters →
        (updateResultSummary escapeHTML count searchQuery filters dom).resultHeading
          = some "All AI Models") := by
  rw [(updateResultSummary_count escapeHTML count searchQuery filters dom hHeading hCount).2]
  simp only [← hasActiveFilters_iff]
  refine ⟨?_, ?_, ?_, ?_⟩ <;> intro hq ha <;> simp [headingText, hq, ha]

/-- Witness of C1: the query `gpt` with a budget of 20 is headed
`Results for "gpt" with filters`. -/
theorem updateResultSummary_heading_witness :
    scenarioDom.resultHeading ≠ none ∧ scenarioDom.resultCount ≠ none
      ∧ "gpt" ≠ "" ∧ FilterActive { maxBudget := some (.number (.finite 20)) }
      ∧ (updateResultSummary specEscapeHTML 3 "gpt"
          { maxBudget := some (.number (.finite 20)) } scenarioDom).resultHeading
        = some "Results for \"gpt\" with filters" :=
  ⟨by decide, by decide, by decide, (hasActiveFilters_iff _).1 (by decide),
    ((updateResultSummary_heading specEscapeHTML 3 "gpt"
      { maxBudget := some (.number (.finite 20)) } scenarioDom (by decide) (by decide)).1
        (by decide) ((hasActiveFilters_iff _).1 (by decide))).trans (by decide)⟩

/-- Claim C6: the change of the sort control, recomputation included, sets
`sortBy` to the selected value and keeps every other field of the settings, the
query and the catalog, whatever the controls show and whatever the other
scripts return or throw; in a regular environment the listener returns
normally. -/
theorem onSortChange_merges {α : Type} (env : Env α) (value : String) (s : AppState α) :
    (onSortChange env value s).2.currentFilterSettings
        = { s.currentFilterSettings with sortBy := some value }
      ∧ (onSortChange env value s).2.currentSearchQuery = s.currentSearchQuery
      ∧ (onSortChange env value s).2.loadedModels = s.loadedModels
      ∧ (env.Regular → (onSortChange env value s).1 = .ok ()) := by
  unfold onSortChange
  have hf := updateDisplayedResults_frame env
    { s with currentFilterSettings := { s.currentFilterSettings with sortBy := some value } }
  have hs := updateDisplayedResults_settings env
    { s with currentFilterSettings := { s.currentFilterSettings with sortBy := some value } }
    (keyCount_sortBy _ _)
  exact ⟨hs, hf.1, hf.2, fun hReg => updateDisplayedResults_regular env hReg _⟩

/-- Witness of C6: sorting by name in the initial state of the scenario. -/
theorem onSortChange_merges_witness :
    (specEnv {}).Regular
      ∧ (onSortChange (specEnv {}) "name"
          (initialState scenarioCatalog scenarioDom)).2.currentFilterSettings
        = { sortBy := some "name" }
      ∧ (onSortChange (specEnv {}) "name" (initialState scenarioCatalog scenarioDom)).1
        = .ok () :=
  ⟨specEnv_regular {},
    (onSortChange_merges (specEnv {}) "name" (initialState scenarioCatalog scenarioDom)).1,
    (onSortChange_merges (specEnv {}) "name" (initialState scenarioCatalog scenarioDom)).2.2.2
      (specEnv_regular {})⟩

/-- Counterexample to C7: a filter step that throws `null` makes the `catch`
block throw a `TypeError` on `error.message`, which leaves
`updateDisplayedResults` with the grid untouched; and when `escapeHTML` throws
on every text, the summary update throws for the query `b` and `showErrorState`
throws again, so that failure leaves the function too. -/
theorem updateDisplayedResults_catches_counterexample :
    nullThrowingEnv.applyAllActiveFilters scenarioCatalog {} = .error .nullish
      ∧ (updateDisplayedResults nullThrowingEnv
          (initialState scenarioCatalog scenarioDom)).1 = .error messageOfNullError
      ∧ (updateDisplayedResults nullThrowingEnv
          (initialState scenarioCatalog scenarioDom)).2.dom.resultsGrid = some ""
      ∧ updateResultSummaryThrows throwingEscapeEnv.escapeHTMLThrows "b" scenarioDom
        = some (.error ⟨"TypeError", "cannot escape"⟩)
      ∧ (updateDisplayedResults throwingEscapeEnv
          { initialState scenarioCatalog scenarioDom with currentSearchQuery := "b" }).1
        = .error (.error ⟨"TypeError", "cannot escape"⟩)
      ∧ (updateDisplayedResults throwingEscapeEnv
          { initialState scenarioCatalog scenarioDom with
            currentSearchQuery := "b" }).2.dom.resultsGrid = some "" := by
  decide

/-- Claim C7, amended: when a step of the `try` block of `updateDisplayedResults`
(text search, reading of the settings, filter application, result display or
summary update) throws a value `error` other than `null` and `undefined`, the
document has the results grid and `escapeHTML` returns for the message, then
`updateDisplayedResults` returns normally, the grid holds the error panel with
`Error filtering results: ` followed by the message of `error`, and the last
calls are the log of `error`, the listener of the retry button and the hiding of
the loading state. -/
theorem updateDisplayedResults_catches {α : Type} (env : Env α) (s : AppState α)
    (error : JSError)
    (hStep : TryStepThrows env s (.error error))
    (hGrid : s.dom.resultsGrid ≠ none)
    (hEscape : env.escapeHTMLThrows ("Error filtering results: " ++ error.message) = none) :
    (updateDisplayedResults env s).1 = .ok ()
      ∧ (updateDisplayedResults env s).2.dom.resultsGrid
        = some (errorMarkupBefore
            ++ env.escapeHTML ("Error filtering results: " ++ error.message)
            ++ errorMarkupAfter)
      ∧ ∃ before, (updateDisplayedResults env s).2.trace
        = before ++ [.consoleError "Error updating results:" (.error error),
            .retryListenerAdded, .hideLoadingState] := by
  have hThrow := updateDisplayedResultsTry_throws env (s.log .showLoadingState) (.error error)
    (hStep.log .showLoadingState)
  have hframe := (updateDisplayedResultsTry_frame env (s.log .showLoadingState)).2.2
  unfold updateDisplayedResults
  generalize updateDisplayedResultsTry env (s.log .showLoadingState) = r at hThrow hframe
  obtain ⟨c, s1⟩ := r
  simp only at hThrow
  subst hThrow
  have hg : (s1.log (.consoleError "Error updating results:" (.error error))).dom.resultsGrid
      ≠ none := by
    simp only [AppState.log]
    rw [hframe]
    exact hGrid
  simp only [updateDisplayedResultsCatch]
  rw [showErrorState_shown env _ _ hg hEscape]
  refine ⟨rfl, rfl, s1.trace, ?_⟩
  simp [AppState.log]

/-- Witness of C7, amended: a filter step that throws a `TypeError`, and a
summary update whose `escapeHTML` throws on the query `b`, both end in the
error panel. -/
theorem updateDisplayedResults_catches_witness :
    TryStepThrows failingEnv (initialState scenarioCatalog scenarioDom)
        (.error ⟨"TypeError", "models.filter is not a function"⟩)
      ∧ (initialState scenarioCatalog scenarioDom).dom.resultsGrid ≠ none
      ∧ failingEnv.escapeHTMLThrows
          ("Error filtering results: " ++ "models.filter is not a function") = none
      ∧ (updateDisplayedResults failingEnv (initialState scenarioCatalog scenarioDom)).1
        = .ok ()
      ∧ (updateDisplayedResults failingEnv
          (initialState scenarioCatalog scenarioDom)).2.dom.resultsGrid
        = some (errorMarkupBefore
            ++ specEscapeHTML "Error filtering results: models.filter is not a function"
            ++ errorMarkupAfter)
      ∧ TryStepThrows partialEscapeEnv
          { initialState scenarioCatalog scenarioDom with currentSearchQuery := "b" }
          (.error ⟨"TypeError", "cannot escape"⟩)
      ∧ (updateDisplayedResults partialEscapeEnv
          { initialState scenarioCatalog scenarioDom with currentSearchQuery := "b" }).2.dom.resultsGrid
        = some (errorMarkupBefore
            ++ specEscapeHTML "Error filtering results: cannot escape"
            ++ errorMarkupAfter) :=
  ⟨failingEnv_step, by decide, by decide,
    (updateDisplayedResults_catches failingEnv (initialState scenarioCatalog scenarioDom)
      ⟨"TypeError", "models.filter is not a function"⟩ failingEnv_step (by decide)
      (by decide)).1,
    (updateDisplayedResults_catches failingEnv (initialState scenarioCatalog scenarioDom)
      ⟨"TypeError", "models.filter is not a function"⟩ failingEnv_step (by decide)
      (by decide)).2.1,
    partialEscapeEnv_step,
    (updateDisplayedResults_catches partialEscapeEnv
      { initialState scenarioCatalog scenarioDom with currentSearchQuery := "b" }
      ⟨"TypeError", "cannot escape"⟩ partialEscapeEnv_step (by decide) (by decide)).2.1⟩

/-- Counterexample to C8: with an empty query and the settings `{}`, but a
checked free-only control, `updateDisplayedResults` hands only the free model of
the two-model catalog to the presentation and reports one model. -/
theorem updateDisplayedResults_identity_counterexample :
    (initialState scenarioCatalog scenarioDom).currentSearchQuery = ""
      ∧ (initialState scenarioCatalog scenarioDom).currentFilterSettings = {}
      ∧ scenarioCatalog.length = 2
      ∧ (updateDisplayedResults (specEnv { freeOnly := some true })
          (initialState scenarioCatalog scenarioDom)).2.trace
        = [.showLoadingState, .displaySearchResults (scenarioCatalog.take 1),
            .hideLoadingState]
      ∧ scenarioCatalog.take 1 ≠ scenarioCatalog
      ∧ (updateDisplayedResults (specEnv { freeOnly := some true })
          (initialState scenarioCatalog scenarioDom)).2.dom.resultCount
        = some "Showing 1 model" := by
  decide

/-- Claim C8, amended: with an empty query and the settings `{}`,
`updateDisplayedResults` takes the settings from `readCurrentFilterSettings`,
hands `applyAllActiveFilters` of the catalog and these settings to the
presentation, and reports the length of that sequence, when no call throws and
the summary elements exist. -/
theorem updateDisplayedResults_empty_settings {α : Type} (env : Env α) (s : AppState α)
    (settings : FilterSettings) (filtered : List α)
    (hQuery : s.currentSearchQuery = "") (hEmpty : s.currentFilterSettings = {})
    (hRead : env.readCurrentFilterSettings = .ok settings)
    (hFilter : env.applyAllActiveFilters s.loadedModels settings = .ok filtered)
    (hDisplay : env.displaySearchResults filtered = .ok ())
    (hHeading : s.dom.resultHeading ≠ none) (hCount : s.dom.resultCount ≠ none) :
    Presents s (updateDisplayedResults env s).2 filtered
      ∧ (updateDisplayedResults env s).2.currentFilterSettings = settings := by
  have hkeys : s.currentFilterSettings.keyCount = 0 := by rw [hEmpty]; rfl
  have hSummary : updateResultSummaryThrows env.escapeHTMLThrows s.currentSearchQuery s.dom
      = none := by
    rw [hQuery]
    exact updateResultSummaryThrows_of_empty _ _
  exact updateDisplayedResults_ok env s s.loadedModels filtered settings
    (Or.inl ⟨hQuery, rfl⟩) (Or.inr ⟨hkeys, hRead⟩) hFilter hDisplay hSummary hHeading hCount

/-- Witness of C8, amended: with untouched controls the whole scenario catalog
is presented. -/
theorem updateDisplayedResults_empty_settings_witness :
    (initialState scenarioCatalog scenarioDom).currentSearchQuery = ""
      ∧ (initialState scenarioCatalog scenarioDom).currentFilterSettings = {}
      ∧ (specEnv {}).readCurrentFilterSettings = .ok {}
      ∧ (specEnv {}).applyAllActiveFilters
          (initialState scenarioCatalog scenarioDom).loadedModels {} = .ok scenarioCatalog
      ∧ (specEnv {}).displaySearchResults scenarioCatalog = .ok ()
      ∧ Presents (initialState scenarioCatalog scenarioDom)
          (updateDisplayedResults (specEnv {}) (initialState scenarioCatalog scenarioDom)).2
          scenarioCatalog :=
  ⟨by decide, by decide, by decide, by decide, by decide,
    (updateDisplayedResults_empty_settings (specEnv {})
      (initialState scenarioCatalog scenarioDom) {} scenarioCatalog (by decide) (by decide)
      (by decide) (by decide) (by decide) (by decide) (by decide)).1⟩

/-- Claim C9: with settings that have a key, `updateDisplayedResults` hands to
the presentation the filter step applied to the output of the text search for a
non-empty query, and the filter step applied to the catalog for an empty one;
the count it reports is the length of that sequence, and the settings stay.
This holds when no call throws (`escapeHTML`, which the summary calls on a
non-empty query, included) and the summary elements exist. -/
theorem updateDisplayedResults_pipeline {α : Type} (env : Env α) (s : AppState α)
    (filtered : List α)
    (hKeys : s.currentFilterSettings.keyCount ≠ 0)
    (hDisplay : env.displaySearchResults filtered = .ok ())
    (hHeading : s.dom.resultHeading ≠ none) (hCount : s.dom.resultCount ≠ none) :
    (s.currentSearchQuery ≠ "" → env.escapeHTMLThrows s.currentSearchQuery = none →
        ∀ searched : List α,
        env.filterModelsBySearchQuery s.loadedModels s.currentSearchQuery = .ok searched →
        env.applyAllActiveFilters searched s.currentFilterSettings = .ok filtered →
        Presents s (updateDisplayedResults env s).2 filtered
          ∧ (updateDisplayedResults env s).2.currentFilterSettings = s.currentFilterSettings)
      ∧ (s.currentSearchQuery = "" →
        env.applyAllActiveFilters s.loadedModels s.currentFilterSettings = .ok filtered →
        Presents s (updateDisplayedResults env s).2 filtered
          ∧ (updateDisplayedResults env s).2.currentFilterSettings
            = s.currentFilterSettings) := by
  constructor
  · intro hq hEscape searched hSearch hFilter
    exact updateDisplayedResults_ok env s searched filtered s.currentFilterSettings
      (Or.inr ⟨hq, hSearch⟩) (Or.inl ⟨hKeys, rfl⟩) hFilter hDisplay
      (updateResultSummaryThrows_of_none _ _ _ hEscape) hHeading hCount
  · intro hq hFilter
    have hSummary : updateResultSummaryThrows env.escapeHTMLThrows s.currentSearchQuery s.dom
        = none := by
      rw [hq]
      exact updateResultSummaryThrows_of_empty _ _
    exact updateDisplayedResults_ok env s s.loadedModels filtered s.currentFilterSettings
      (Or.inl ⟨hq, rfl⟩) (Or.inl ⟨hKeys, rfl⟩) hFilter hDisplay hSummary hHeading hCount

/-- Witness of C9: the query `b` with a budget of 45 presents the model `B`. -/
theorem updateDisplayedResults_pipeline_witness :
    ({ maxBudget := some (.number (.finite 45)) } : FilterSettings).keyCount ≠ 0
      ∧ (specEnv {}).displaySearchResults (scenarioCatalog.drop 1) = .ok ()
      ∧ scenarioDom.resultHeading ≠ none ∧ scenarioDom.resultCount ≠ none
      ∧ Presents
          { currentSearchQuery := "b"
            currentFilterSettings := { maxBudget := some (.number (.finite 45)) }
            loadedModels := scenarioCatalog, dom := scenarioDom, trace := [] }
          (updateDisplayedResults (specEnv {})
            { currentSearchQuery := "b"
              currentFilterSettings := { maxBudget := some (.number (.finite 45)) }
              loadedModels := scenarioCatalog, dom := scenarioDom, trace := [] }).2
          (scenarioCatalog.drop 1) :=
  ⟨by decide, by decide, by decide, by decide,
    ((updateDisplayedResults_pipeline (specEnv {})
      { currentSearchQuery := "b"
        currentFilterSettings := { maxBudget := some (.number (.finite 45)) }
        loadedModels := scenarioCatalog, dom := scenarioDom, trace := [] }
      (scenarioCatalog.drop 1) (by decide) (by decide) (by decide) (by decide)).1
        (by decide) rfl (scenarioCatalog.drop 1) (by decide) (by decide)).1⟩

/-- Claim C10: a fragment in which `model` is absent or empty and `search` is
absent or empty (the empty fragment and a fragment of unknown keys among them)
makes `processUrlParameters` return normally with the state as it was: the
query, the settings and the catalog are kept, no detail view is opened and no
recomputation is made. -/
theorem processUrlParameters_without_keys {α : Type} (env : Env α) (hash : String)
    (s : AppState α)
    (hModel : URLSearchParams.get (URLSearchParams (substring hash 1)) "model" = none
      ∨ URLSearchParams.get (URLSearchParams (substring hash 1)) "model" = some "")
    (hSearch : URLSearchParams.get (URLSearchParams (substring hash 1)) "search" = none
      ∨ URLSearchParams.get (URLSearchParams (substring hash 1)) "search" = some "") :
    processUrlParameters env hash s = (.ok (), s) := by
  have hm : (URLSearchParams.get (URLSearchParams (substring hash 1)) "model").filter
      (fun modelName => modelName ≠ "") = none := by
    rcases hModel with h | h <;> simp [h]
  have hs : (URLSearchParams.get (URLSearchParams (substring hash 1)) "search").filter
      (fun searchQuery => searchQuery ≠ "") = none := by
    rcases hSearch with h | h <;> simp [h]
  unfold processUrlParameters
  split_ifs
  · rw [hm]
    simp only
    rw [hs]
  · rfl

/-- Witness of C10: the fragment `#foo=bar&baz` of unknown keys changes
nothing. -/
theorem processUrlParameters_without_keys_witness :
    (URLSearchParams.get (URLSearchParams (substring "#foo=bar&baz" 1)) "model" = none
        ∨ URLSearchParams.get (URLSearchParams (substring "#foo=bar&baz" 1)) "model"
          = some "")
      ∧ (URLSearchParams.get (URLSearchParams (substring "#foo=bar&baz" 1)) "search" = none
        ∨ URLSearchParams.get (URLSearchParams (substring "#foo=bar&baz" 1)) "search"
          = some "")
      ∧ processUrlParameters (specEnv {}) "#foo=bar&baz"
          (initialState scenarioCatalog scenarioDom)
        = (.ok (), initialState scenarioCatalog scenarioDom) :=
  ⟨Or.inl (by decide), Or.inl (by decide),
    processUrlParameters_without_keys (specEnv {}) "#foo=bar&baz"
      (initialState scenarioCatalog scenarioDom) (Or.inl (by decide)) (Or.inl (by decide))⟩

/-- Counterexample to C2: in `#model=&search=foo` the `model` key is present,
with an empty value; `processUrlParameters` opens no detail view, restores the
query `foo` and recomputes. -/
theorem processUrlParameters_model_counterexample :
    URLSearchParams.get (URLSearchParams (substring "#model=&search=foo" 1)) "model"
        = some ""
      ∧ (initialState scenarioCatalog scenarioDom).currentSearchQuery = ""
      ∧ (processUrlParameters (specEnv {}) "#model=&search=foo"
          (initialState scenarioCatalog scenarioDom)).2.currentSearchQuery = "foo"
      ∧ (processUrlParameters (specEnv {}) "#model=&search=foo"
          (initialState scenarioCatalog scenarioDom)).2.trace
        = [.showLoadingState, .displaySearchResults [], .hideLoadingState] := by
  decide

/-- Claim C2, amended: when the fragment has a `model` key whose value, as
`URLSearchParams` returns it, is not empty and has no `%`, then
`processUrlParameters` calls `displayModelDetail` with that value and does
nothing else, whatever the fragment holds besides: the query, the settings, the
catalog and the document stay, and no recomputation is made. -/
theorem processUrlParameters_model_first {α : Type} (env : Env α) (hash : String)
    (s : AppState α) (modelName : String)
    (hModel : URLSearchParams.get (URLSearchParams (substring hash 1)) "model"
      = some modelName)
    (hValue : modelName ≠ "") (hPercent : '%' ∉ modelName.data) :
    processUrlParameters env hash s
      = (env.displayModelDetail modelName, s.log (.displayModelDetail modelName)) := by
  have hhash : hash ≠ "" := by
    intro h
    rw [h, get_substring_empty] at hModel
    cases hModel
  unfold processUrlParameters
  rw [if_pos hhash, hModel]
  simp only [Option.filter, hValue, ne_eq, not_false_eq_true, decide_True, if_true]
  rw [decodeURIComponent_of_no_percent modelName hPercent]

/-- Witness of C2, amended: `#model=GPT%2DX&search=b` opens the detail view of
`GPT-X` and leaves the query alone. -/
theorem processUrlParameters_model_first_witness :
    URLSearchParams.get (URLSearchParams (substring "#model=GPT%2DX&search=b" 1)) "model"
        = some "GPT-X"
      ∧ "GPT-X" ≠ "" ∧ '%' ∉ "GPT-X".data
      ∧ processUrlParameters (specEnv {}) "#model=GPT%2DX&search=b"
          (initialState scenarioCatalog scenarioDom)
        = ((specEnv {}).displayModelDetail "GPT-X",
            (initialState scenarioCatalog scenarioDom).log (.displayModelDetail "GPT-X")) :=
  ⟨by decide, by decide, by decide,
    processUrlParameters_model_first (specEnv {}) "#model=GPT%2DX&search=b"
      (initialState scenarioCatalog scenarioDom) "GPT-X" (by decide) (by decide) (by decide)⟩

/-- Counterexample to C3: the fragment that carries the encoding of the empty
query leaves an earlier query in place and recomputes nothing; the fragment
that carries the encoding of `a`, a line feed and `b` restores `ab`, the text
input dropping the line feed; and the fragment that carries the encoding of the
query `%41` restores `A`. -/
theorem processUrlParameters_search_counterexample :
    processUrlParameters (specEnv {}) ("#search=" ++ encodeURIComponent "")
        { initialState scenarioCatalog scenarioDom with currentSearchQuery := "old" }
      = (.ok (), { initialState scenarioCatalog scenarioDom with currentSearchQuery := "old" })
      ∧ encodeURIComponent "a\nb" = "a%0Ab"
      ∧ (processUrlParameters (specEnv {}) ("#search=" ++ encodeURIComponent "a\nb")
          (initialState scenarioCatalog scenarioDom)).2.currentSearchQuery = "ab"
      ∧ encodeURIComponent "%41" = "%2541"
      ∧ (processUrlParameters (specEnv {}) ("#search=" ++ encodeURIComponent "%41")
          (initialState scenarioCatalog scenarioDom)).2.currentSearchQuery = "A" := by
  decide

/-- Claim C3, amended: for a non-empty trimmed query `q` without `%` and without
line break, a fragment without `model` key whose first `search` pair carries
`encodeURIComponent q`, and a document with the search input,
`processUrlParameters` writes `q` to the input, assigns exactly `q` to the
current search query, which is therefore trimmed, and recomputes the results. -/
theorem processUrlParameters_restores_search {α : Type} (env : Env α) (s : AppState α)
    (pre post q value : String)
    (hQuery : q ≠ "") (hPercent : '%' ∉ q.data)
    (hLine : ∀ c ∈ q.data, c.toNat ≠ 0x0A ∧ c.toNat ≠ 0x0D)
    (hTrimmed : IsTrimmed q)
    (hPre : pre = "" ∨ ∃ p : String, pre = p ++ "&")
    (hPost : post = "" ∨ ∃ p : String, post = "&" ++ p)
    (hFirst : URLSearchParams.get (URLSearchParams pre) "search" = none)
    (hModel : URLSearchParams.get
      (URLSearchParams (pre ++ "search=" ++ encodeURIComponent q ++ post)) "model" = none)
    (hInput : s.dom.searchInput = some value) :
    processUrlParameters env ("#" ++ (pre ++ "search=" ++ encodeURIComponent q ++ post)) s
        = updateDisplayedResults env
            { s with dom := { s.dom with searchInput := some q }, currentSearchQuery := q }
      ∧ (processUrlParameters env
          ("#" ++ (pre ++ "search=" ++ encodeURIComponent q ++ post)) s).2.currentSearchQuery
        = q
      ∧ IsTrimmed (processUrlParameters env
          ("#" ++ (pre ++ "search=" ++ encodeURIComponent q ++ post)) s).2.currentSearchQuery :=
    by
  have hSearch := get_search_of_encoded pre post q hPre hPost hFirst
  have hSanitize := sanitizeInputValue_of_no_line_break q hLine
  have hhash : "#" ++ (pre ++ "search=" ++ encodeURIComponent q ++ post) ≠ "" := by
    intro h
    have := congrArg String.data h
    simp [String.data_append] at this
  have hrun : processUrlParameters env
      ("#" ++ (pre ++ "search=" ++ encodeURIComponent q ++ post)) s
        = updateDisplayedResults env
            { s with dom := { s.dom with searchInput := some q }, currentSearchQuery := q } := by
    unfold processUrlParameters
    rw [if_pos hhash, substring_hash, hModel, hSearch]
    simp only [Option.filter, hQuery, ne_eq, not_false_eq_true, decide_True, if_true]
    rw [hInput]
    simp only
    rw [decodeURIComponent_of_no_percent q hPercent]
    simp only
    rw [hSanitize]
  have hq : (processUrlParameters env
      ("#" ++ (pre ++ "search=" ++ encodeURIComponent q ++ post)) s).2.currentSearchQuery
        = q := by
    rw [hrun]
    exact (updateDisplayedResults_frame env _).1
  refine ⟨hrun, hq, ?_⟩
  rw [hq]
  exact hTrimmed

/-- Witness of C3, amended: the fragment `#search=caf%C3%A9%20b` restores the
query `café b`. -/
theorem processUrlParameters_restores_search_witness :
    "café b" ≠ "" ∧ '%' ∉ "café b".data
      ∧ (∀ c ∈ "café b".data, c.toNat ≠ 0x0A ∧ c.toNat ≠ 0x0D)
      ∧ IsTrimmed "café b"
      ∧ "#" ++ ("" ++ "search=" ++ encodeURIComponent "café b" ++ "") = "#search=caf%C3%A9%20b"
      ∧ URLSearchParams.get (URLSearchParams "") "search" = none
      ∧ URLSearchParams.get
          (URLSearchParams ("" ++ "search=" ++ encodeURIComponent "café b" ++ "")) "model"
        = none
      ∧ (initialState scenarioCatalog scenarioDom).dom.searchInput = some ""
      ∧ (processUrlParameters (specEnv {})
          ("#" ++ ("" ++ "search=" ++ encodeURIComponent "café b" ++ ""))
          (initialState scenarioCatalog scenarioDom)).2.currentSearchQuery = "café b" :=
  ⟨by decide, by decide, by decide, isTrimmed_cafe, by decide, by decide, by decide,
    by decide,
    (processUrlParameters_restores_search (specEnv {})
      (initialState scenarioCatalog scenarioDom) "" "" "café b" "" (by decide) (by decide)
      (by decide) isTrimmed_cafe (Or.inl rfl) (Or.inl rfl) (by decide) (by decide)
      (by decide)).2.1⟩

/-- Claim C4, as the code has it: the fragment `#search=100%25`, which carries the
encoding of the query `100%`, makes `processUrlParameters` and the `hashchange`
listener throw a `URIError`; the value that `URLSearchParams` has already
decoded to `100%` is decoded a second time. -/
theorem processUrlParameters_raises :
    encodeURIComponent "100%" = "100%25"
      ∧ URLSearchParams.get (URLSearchParams (substring "#search=100%25" 1)) "search"
        = some "100%"
      ∧ decodeURIComponent "100%" = .error uriError
      ∧ (processUrlParameters (specEnv {}) "#search=100%25"
          (initialState scenarioCatalog scenarioDom)).1 = .error uriError
      ∧ (onHashChange (specEnv {}) "#search=100%25"
          (initialState scenarioCatalog scenarioDom)).1 = .error uriError := by
  decide

/-- Claim C5, as the code has it: from the initial state the `hashchange`
listener, for the fragment `#search=%20foo`, leaves the query ` foo`, which
starts with a space, where a search submission of the same text leaves `foo`. -/
theorem hashChange_query_not_trimmed :
    (initialState scenarioCatalog scenarioDom).currentSearchQuery = ""
      ∧ (onHashChange (specEnv {}) "#search=%20foo"
          (initialState scenarioCatalog scenarioDom)).2.currentSearchQuery = " foo"
      ∧ ¬ IsTrimmed " foo"
      ∧ (onSearchButtonClick (specEnv {})
          { initialState scenarioCatalog scenarioDom with
            dom := { scenarioDom with searchInput := some " foo" } }).2.currentSearchQuery
        = "foo" := by
  refine ⟨by decide, by decide, ?_, by decide⟩
  intro h
  have := h.1 ' ' rfl
  revert this
  decide

end WorkflowOptimizer
